import Mathlib

/-!
# Clio RPC handlers: `account_channels` and `noripple_check`

A shallow embedding of `src/rpc/handlers/AccountChannels.cpp` and
`src/rpc/handlers/NoRippleCheck.cpp`.

Conventions of the embedding:

* `ripple::AccountID`, `ripple::uint256` and currency codes are natural numbers; the
  string renderings `to_string`, `toBase58`, `strHex` of identifiers that end up in a JSON
  response are injective encodings and the response records keep the underlying value.
* `std::uint32_t` and `size_t` are natural numbers with explicit reduction modulo `2^32`
  and `2^64`.
* A lambda that captures local variables by reference is a function from the captured
  state and the offered object to the returned boolean and the new captured state.
* The owner directory of an account in a ledger is the list of its owned objects in scan
  order.
-/

namespace Clio

/-! ## Ledger objects -/

abbrev AccountID := Nat

inductive LedgerEntryType where
  | ltACCOUNT_ROOT
  | ltRIPPLE_STATE
  | ltPAYCHAN
  | ltOFFER
  | ltCHECK
  deriving DecidableEq, Repr

/-- An issued amount `ripple::STAmount`: value, currency code and issuer. -/
structure STAmount where
  value : Int
  currency : Nat
  issuer : AccountID
  deriving DecidableEq, Repr

/-- A ledger entry `ripple::SLE` with the fields the two handlers read. A field that is
absent from the entry reads as its default, as `getAccountID`, `getFieldU32` and
`getFieldAmount` do; the optional fields read with `line[~sf]` are options. -/
structure SLE where
  key : Nat
  getType : LedgerEntryType
  sfAccount : AccountID := 0
  sfDestination : AccountID := 0
  sfAmount : Int := 0
  sfBalance : Int := 0
  sfPublicKey : Nat := 0
  sfSettleDelay : Nat := 0
  sfExpiration : Option Nat := none
  sfCancelAfter : Option Nat := none
  sfSourceTag : Option Nat := none
  sfDestinationTag : Option Nat := none
  sfFlags : Nat := 0
  sfSequence : Nat := 0
  sfLowLimit : STAmount := ⟨0, 0, 0⟩
  sfHighLimit : STAmount := ⟨0, 0, 0⟩
  deriving DecidableEq, Repr

/-- Constants and pure helpers that the handlers use and whose definitions are outside
the handlers: the ledger and transaction flag masks of the `ripple` protocol library, the
public key classifier, the text renderings that are concatenated into findings, and
`keyPastEnd`, the key the owned-object scanner reports as resumption point when the
callback returns `false` on the last owned object (the spec names a resumption point for
every `false` return and does not say which key this one is; nothing is assumed of it). -/
structure Protocol where
  lsfDefaultRipple : Nat
  lsfLowNoRipple : Nat
  lsfHighNoRipple : Nat
  tfSetNoRipple : Nat
  tfClearNoRipple : Nat
  publicKeyType : Nat → Bool
  currencyToString : Nat → String
  accountToString : AccountID → String
  keyPastEnd : Nat

/-- The values of the `ripple` protocol library (`LedgerFormats.h`, `TxFlags.h`), with
decimal renderings for the texts; `keyPastEnd` is set to an arbitrary key, `0`, and no
statement below depends on that choice. -/
def rippled : Protocol where
  lsfDefaultRipple := 0x00800000
  lsfLowNoRipple := 0x00100000
  lsfHighNoRipple := 0x00200000
  tfSetNoRipple := 0x00020000
  tfClearNoRipple := 0x00040000
  publicKeyType := fun pk => pk != 0
  currencyToString := fun c => toString c
  accountToString := fun a => toString a
  keyPastEnd := 0

/-! ## Requests, statuses -/

/-- The kinds of `boost::json::value` the handlers distinguish. -/
inductive JsonValue where
  | null
  | bool (b : Bool)
  | int64 (n : Int)
  | uint64 (n : Nat)
  | double
  | string (s : String)
  | array
  | object
  deriving DecidableEq, Repr

abbrev Request := List (String × JsonValue)

inductive Error where
  | rpcINVALID_PARAMS
  | rpcLGR_NOT_FOUND
  | rpcACT_NOT_FOUND
  deriving DecidableEq, Repr

structure Status where
  code : Error
  message : String
  deriving DecidableEq, Repr

structure LedgerInfo where
  seq : Nat
  hash : Nat
  deriving DecidableEq, Repr

structure Fees where
  units : Nat
  deriving DecidableEq, Repr

/-- The request context: the parameters and the collaborators the handlers call
(`ledgerInfoFromRequest`, `accountFromStringStrict`, `uint256::parseHex`, the backend's
`fetchLedgerObject` already decoded into an entry, `fetchFees`, the account keylet, the
owner directory of an account at a ledger sequence, and the request helpers
`getRequiredString`, `getUInt`, `getBool` of `rpc/RPCHelpers.h`, which either return a
value or throw an invalid-parameters exception with a message). -/
structure Context where
  params : Request
  ledgerInfoFromRequest : Except Status LedgerInfo
  accountFromStringStrict : String → Option AccountID
  parseHex : String → Option Nat
  accountKeylet : AccountID → Nat
  fetchLedgerObject : Nat → Nat → Option SLE
  fetchFees : Nat → Option Fees
  ownedNodes : AccountID → Nat → List SLE
  getRequiredString : Request → String → Except String String
  getUInt : Request → String → Nat → Except String Nat
  getBool : Request → String → Bool → Except String Bool

/-- Conversion of a signed 64-bit value to `std::uint32_t`. -/
def toUInt32 (n : Int) : Nat := (n % 4294967296).toNat

/-! ## The owned-object scanner -/

/-- Offer the objects of a list to a callback, one after the other, threading the
captured state, until the callback first returns `false`. The result is `some rest` with
`rest` the objects that follow the one on which the callback returned `false`, or `none`
when every object was offered and the callback never returned `false`. -/
def offerUntilStop {σ α : Type} (cb : σ → α → Bool × σ) : σ → List α → Option (List α) × σ
  | s, [] => (none, s)
  | s, o :: rest =>
    match cb s o with
    | (true, s1) => offerUntilStop cb s1 rest
    | (false, s1) => (some rest, s1)

/-- Modelled from the spec: `traverseOwnedNodes` (declared in `rpc/RPCHelpers.h`, its body
is not part of the sources at hand). Spec section 4.1: the scanner iterates the owned
objects in key order starting at the cursor, offers each one to the callback, and when the
callback returns `false` it reports the key of the object after the one just offered as the
resumption point; when the index is exhausted without the callback ever returning `false`
it reports no cursor. Every `false` return yields a cursor: when no object follows the one
just offered, the reported key is `pastEnd`, a parameter of which nothing is assumed.
`owned` is the owner directory in key order; an absent cursor is the zero key. -/
def traverseOwnedNodes {σ : Type} (pastEnd : Nat) (owned : List SLE) (cursor : Nat)
    (atOwnedNode : σ → SLE → Bool × σ) (s : σ) : Option Nat × σ :=
  match offerUntilStop atOwnedNode s (owned.filter (fun o => decide (cursor ≤ o.key))) with
  | (some rest, s1) => (some ((rest.head?.map SLE.key).getD pastEnd), s1)
  | (none, s1) => (none, s1)

/-! ## `AccountChannels.cpp` -/

/-- The JSON record `addChannel` builds for a payment channel. -/
structure Channel where
  channel_id : Nat
  account : AccountID
  destination_account : AccountID
  amount : Int
  balance : Int
  public_key : Option Nat
  public_key_hex : Option Nat
  settle_delay : Nat
  expiration : Option Nat
  cancel_after : Option Nat
  source_tag : Option Nat
  destination_tag : Option Nat
  deriving DecidableEq, Repr

def addChannel (P : Protocol) (jsonLines : List Channel) (line : SLE) : List Channel :=
  let pk : Option Nat := if P.publicKeyType line.sfPublicKey then some line.sfPublicKey else none
  jsonLines ++ [
    { channel_id := line.key
      account := line.sfAccount
      destination_account := line.sfDestination
      amount := line.sfAmount
      balance := line.sfBalance
      public_key := pk
      public_key_hex := pk
      settle_delay := line.sfSettleDelay
      expiration := line.sfExpiration
      cancel_after := line.sfCancelAfter
      source_tag := line.sfSourceTag
      destination_tag := line.sfDestinationTag }]

/-- The validated parameters of `doAccountChannels` (lines 51 to 101). -/
structure ChannelsParams where
  lgrInfo : LedgerInfo
  accountID : AccountID
  destAccount : Option AccountID
  limit : Nat
  marker : Nat
  deriving DecidableEq, Repr

/-- Parameter validation of `doAccountChannels`, lines 51 to 101, in source order. -/
def channelsParams (ctx : Context) : Except Status ChannelsParams :=
  match ctx.ledgerInfoFromRequest with
  | .error status => .error status
  | .ok lgrInfo =>
  match ctx.params.lookup "account" with
  | none => .error ⟨.rpcINVALID_PARAMS, "missingAccount"⟩
  | some (.string account) =>
    match ctx.accountFromStringStrict account with
    | none => .error ⟨.rpcINVALID_PARAMS, "malformedAccount"⟩
    | some accountID =>
      let dest : Except Status (Option AccountID) :=
        match ctx.params.lookup "destination_account" with
        | none => .ok none
        | some (.string d) =>
          match ctx.accountFromStringStrict d with
          | none => .error ⟨.rpcINVALID_PARAMS, "destinationMalformed"⟩
          | some destAccount => .ok (some destAccount)
        | some _ => .error ⟨.rpcINVALID_PARAMS, "destinationNotString"⟩
      match dest with
      | .error status => .error status
      | .ok destAccount =>
        let lim : Except Status Nat :=
          match ctx.params.lookup "limit" with
          | none => .ok 200
          | some (.int64 n) =>
            if toUInt32 n ≤ 0 then .error ⟨.rpcINVALID_PARAMS, "limitNotPositive"⟩
            else .ok (toUInt32 n)
          | some _ => .error ⟨.rpcINVALID_PARAMS, "limitNotInt"⟩
        match lim with
        | .error status => .error status
        | .ok limit =>
          match ctx.params.lookup "marker" with
          | none => .ok ⟨lgrInfo, accountID, destAccount, limit, 0⟩
          | some (.string m) =>
            match ctx.parseHex m with
            | none => .error ⟨.rpcINVALID_PARAMS, "malformedCursor"⟩
            | some marker => .ok ⟨lgrInfo, accountID, destAccount, limit, marker⟩
          | some _ => .error ⟨.rpcINVALID_PARAMS, "markerNotString"⟩
  | some _ => .error ⟨.rpcINVALID_PARAMS, "accountNotString"⟩

/-- The state the lambda `addToResponse` captures by reference: the remaining budget
`limit` (a `std::uint32_t`) and the array `jsonChannels`. -/
structure ChannelsState where
  limit : Nat
  jsonChannels : List Channel
  deriving DecidableEq, Repr

/-- The condition under which `addToResponse` considers an object (lines 108 to 111). -/
def channelMatches (accountID : AccountID) (destAccount : Option AccountID) (sle : SLE) : Bool :=
  sle.getType == LedgerEntryType.ltPAYCHAN && sle.sfAccount == accountID &&
    (destAccount.isNone || destAccount == some sle.sfDestination)

/-- The lambda `addToResponse` (lines 107 to 122). `limit-- == 0` compares the old value
and decrements modulo `2^32` in both outcomes. -/
def addToResponse (P : Protocol) (accountID : AccountID) (destAccount : Option AccountID)
    (st : ChannelsState) (sle : SLE) : Bool × ChannelsState :=
  if channelMatches accountID destAccount sle then
    let limit1 := (st.limit + 4294967295) % 4294967296
    if st.limit == 0 then
      (false, { st with limit := limit1 })
    else
      (true, { limit := limit1, jsonChannels := addChannel P st.jsonChannels sle })
  else
    (true, st)

structure ChannelsResponse where
  account : AccountID
  channels : List Channel
  ledger_hash : Nat
  ledger_index : Nat
  marker : Option Nat
  deriving DecidableEq, Repr

/-- Lines 103 to 137 of `doAccountChannels`: the scan of the owner directory `owned` with
`addToResponse` and the assembly of the response. -/
def channelsResponse (P : Protocol) (p : ChannelsParams) (owned : List SLE) : ChannelsResponse :=
  let r := traverseOwnedNodes P.keyPastEnd owned p.marker
    (addToResponse P p.accountID p.destAccount)
    { limit := p.limit, jsonChannels := [] }
  { account := p.accountID
    channels := r.2.jsonChannels
    ledger_hash := p.lgrInfo.hash
    ledger_index := p.lgrInfo.seq
    marker := r.1 }

def doAccountChannels (P : Protocol) (ctx : Context) : Except Status ChannelsResponse :=
  match channelsParams ctx with
  | .error status => .error status
  | .ok p => .ok (channelsResponse P p (ctx.ownedNodes p.accountID p.lgrInfo.seq))

/-! ## `NoRippleCheck.cpp` -/

/-- A suggested transaction, the JSON object built from `getBaseTx`. -/
structure Tx where
  Sequence : Nat
  Account : AccountID
  Fee : Nat
  TransactionType : Option String := none
  SetFlag : Option Nat := none
  LimitAmount : Option STAmount := none
  Flags : Option Nat := none
  deriving DecidableEq, Repr

def getBaseTx (accountID : AccountID) (accountSeq : Nat) (fees : Fees) : Tx :=
  { Sequence := accountSeq, Account := accountID, Fee := fees.units }

/-- The dereference `*fees` of the optional fee parameters; the handlers only dereference
it when transactions are requested, in which case it holds what `fetchFees` returned. -/
def derefFees (fees : Option Fees) : Fees := fees.getD ⟨0⟩

/-- The variables of `doNoRippleCheck` that the scan lambda captures by reference:
`transactions`, the `std::uint32_t` counter `accountSeq`, the `size_t` budget `limit` and
`problems`. -/
structure NoRippleState where
  transactions : List Tx
  accountSeq : Nat
  limit : Nat
  problems : List String
  deriving DecidableEq, Repr

/-- The pre-check on the account root (lines 63 to 87): `accountSeq` is read from the
root, then the default-ripple flag is compared with the role. `accountSeq++` passes the
old value and increments modulo `2^32`. -/
def preCheck (P : Protocol) (accountID : AccountID) (roleGateway includeTxs : Bool)
    (fees : Option Fees) (limit : Nat) (sle : SLE) : NoRippleState :=
  let accountSeq := sle.sfSequence
  let bDefaultRipple := (sle.sfFlags &&& P.lsfDefaultRipple) != 0
  if bDefaultRipple && !roleGateway then
    { transactions := [], accountSeq := accountSeq, limit := limit,
      problems := ["You appear to have set your default ripple flag even though you are not a gateway. This is not recommended unless you are experimenting"] }
  else if roleGateway && !bDefaultRipple then
    if includeTxs then
      let tx : Tx := { getBaseTx accountID accountSeq (derefFees fees) with
        TransactionType := some "AccountSet", SetFlag := some 8 }
      { transactions := [tx], accountSeq := (accountSeq + 1) % 4294967296, limit := limit,
        problems := ["You should immediately set your default ripple flag"] }
    else
      { transactions := [], accountSeq := accountSeq, limit := limit,
        problems := ["You should immediately set your default ripple flag"] }
  else
    { transactions := [], accountSeq := accountSeq, limit := limit, problems := [] }

/-- Lines 105 to 106: whether the account is the low side of the trust line. -/
def isLow (accountID : AccountID) (ownedItem : SLE) : Bool :=
  accountID == ownedItem.sfLowLimit.issuer

/-- Lines 108 to 109: the no-ripple bit of the side the account occupies. -/
def noRippleBit (P : Protocol) (accountID : AccountID) (ownedItem : SLE) : Bool :=
  (ownedItem.sfFlags &&&
    (if isLow accountID ownedItem then P.lsfLowNoRipple else P.lsfHighNoRipple)) != 0

/-- Lines 111 to 124: the start of the finding text and `needFix`. -/
def classify (bNoRipple roleGateway : Bool) : String × Bool :=
  if bNoRipple && roleGateway then
    ("You should clear the no ripple flag on your ", true)
  else if !bNoRipple && !roleGateway then
    ("You should probably set the no ripple flag on your ", true)
  else
    ("", false)

/-- The lambda passed to `traverseOwnedNodes` in `doNoRippleCheck` (lines 95 to 157).
`limit-- == 0` compares the old value and decrements modulo `2^64`. -/
def checkOwnedItem (P : Protocol) (accountID : AccountID) (roleGateway includeTxs : Bool)
    (fees : Option Fees) (st : NoRippleState) (ownedItem : SLE) : Bool × NoRippleState :=
  if ownedItem.getType == LedgerEntryType.ltRIPPLE_STATE then
    let bLow := isLow accountID ownedItem
    let bNoRipple := noRippleBit P accountID ownedItem
    let c := classify bNoRipple roleGateway
    if c.2 then
      let peerLimit := if bLow then ownedItem.sfHighLimit else ownedItem.sfLowLimit
      let peer := peerLimit.issuer
      let problem := c.1 ++ P.currencyToString peerLimit.currency ++ " line to " ++
        P.accountToString peerLimit.issuer
      let st1 : NoRippleState := { st with problems := st.problems ++ [problem] }
      let st2 : NoRippleState :=
        if includeTxs then
          let limitAmount : STAmount :=
            { (if bLow then ownedItem.sfLowLimit else ownedItem.sfHighLimit) with issuer := peer }
          let tx : Tx := { getBaseTx accountID st1.accountSeq (derefFees fees) with
            TransactionType := some "TrustSet"
            LimitAmount := some limitAmount
            Flags := some (if bNoRipple then P.tfClearNoRipple else P.tfSetNoRipple) }
          { st1 with accountSeq := (st1.accountSeq + 1) % 4294967296,
                     transactions := st1.transactions ++ [tx] }
        else st1
      let st3 : NoRippleState := { st2 with limit := (st2.limit + 18446744073709551615) % 18446744073709551616 }
      if st2.limit == 0 then (false, st3) else (true, st3)
    else (true, st)
  else (true, st)

structure NoRippleResponse where
  ledger_index : Nat
  ledger_hash : Nat
  problems : List String
  transactions : Option (List Tx)
  deriving DecidableEq, Repr

/-- The scan of `doNoRippleCheck` (lines 89 to 157) started from the state the pre-check
leaves; the scan starts at the empty cursor and its returned cursor is discarded. -/
def scanPhase (P : Protocol) (accountID : AccountID) (roleGateway includeTxs : Bool)
    (fees : Option Fees) (st : NoRippleState) (owned : List SLE) : NoRippleState :=
  (traverseOwnedNodes P.keyPastEnd owned 0
    (checkOwnedItem P accountID roleGateway includeTxs fees) st).2

/-- Lines 63 to 166 of `doNoRippleCheck`: pre-check, scan and assembly of the response,
for the account root `sle` and the owner directory `owned`. -/
def noRippleResponse (P : Protocol) (accountID : AccountID) (roleGateway includeTxs : Bool)
    (fees : Option Fees) (limit : Nat) (lgrInfo : LedgerInfo) (sle : SLE) (owned : List SLE) :
    NoRippleResponse :=
  let st := scanPhase P accountID roleGateway includeTxs fees
    (preCheck P accountID roleGateway includeTxs fees limit sle) owned
  { ledger_index := lgrInfo.seq
    ledger_hash := lgrInfo.hash
    problems := st.problems
    transactions := if includeTxs then some st.transactions else none }

/-- How a call of `doNoRippleCheck` can fail: a returned `Status`, an invalid-parameters
exception thrown by a request helper, or `AccountNotFoundError`. -/
inductive Failure where
  | status (s : Status)
  | invalidParamsError (message : String)
  | accountNotFoundError (account : AccountID)
  deriving DecidableEq, Repr

def doNoRippleCheck (P : Protocol) (ctx : Context) : Except Failure NoRippleResponse :=
  match ctx.getRequiredString ctx.params "account" with
  | .error e => .error (.invalidParamsError e)
  | .ok account =>
  match ctx.accountFromStringStrict account with
  | none => .error (.status ⟨.rpcINVALID_PARAMS, "malformedAccount"⟩)
  | some accountID =>
  match ctx.getRequiredString ctx.params "role" with
  | .error e => .error (.invalidParamsError e)
  | .ok role =>
  if role != "gateway" && role != "user" then
    .error (.status ⟨.rpcINVALID_PARAMS, "role field is invalid"⟩)
  else
  let roleGateway := role == "gateway"
  match ctx.getUInt ctx.params "limit" 300 with
  | .error e => .error (.invalidParamsError e)
  | .ok limit =>
  match ctx.getBool ctx.params "transactions" false with
  | .error e => .error (.invalidParamsError e)
  | .ok includeTxs =>
  match ctx.ledgerInfoFromRequest with
  | .error status => .error (.status status)
  | .ok lgrInfo =>
  let fees := if includeTxs then ctx.fetchFees lgrInfo.seq else none
  match ctx.fetchLedgerObject (ctx.accountKeylet accountID) lgrInfo.seq with
  | none => .error (.accountNotFoundError accountID)
  | some sle =>
    .ok (noRippleResponse P accountID roleGateway includeTxs fees
      (limit % 18446744073709551616) lgrInfo sle (ctx.ownedNodes accountID lgrInfo.seq))

/-! ## Invariants -/

/-- The finding text the scan callback of `doNoRippleCheck` records for a trust line that
needs a fix (lines 111 to 136). -/
def findingText (P : Protocol) (a : AccountID) (roleGateway : Bool) (o : SLE) : String :=
  (classify (noRippleBit P a o) roleGateway).1 ++
    P.currencyToString (if isLow a o then o.sfHighLimit else o.sfLowLimit).currency ++
    " line to " ++
    P.accountToString (if isLow a o then o.sfHighLimit else o.sfLowLimit).issuer

/-- The `TrustSet` transaction the scan callback of `doNoRippleCheck` suggests for a trust
line that needs a fix when the counter is `accountSeq` (lines 140 to 148). -/
def suggestedTrustSet (P : Protocol) (a : AccountID) (fees : Option Fees) (accountSeq : Nat)
    (o : SLE) : Tx :=
  { Sequence := accountSeq, Account := a, Fee := (derefFees fees).units,
    TransactionType := some "TrustSet",
    LimitAmount := some
      { value := (if isLow a o then o.sfLowLimit else o.sfHighLimit).value,
        currency := (if isLow a o then o.sfLowLimit else o.sfHighLimit).currency,
        issuer := (if isLow a o then o.sfHighLimit else o.sfLowLimit).issuer },
    Flags := some (if noRippleBit P a o then P.tfClearNoRipple else P.tfSetNoRipple) }

/-- Whether the scan callback of `doNoRippleCheck` finds that an owned object needs a fix:
it is a trust line and `needFix` is set (lines 103 to 125). -/
def needsFix (P : Protocol) (a : AccountID) (roleGateway : Bool) (o : SLE) : Bool :=
  o.getType == LedgerEntryType.ltRIPPLE_STATE && (classify (noRippleBit P a o) roleGateway).2

/-- The `TrustSet` transactions suggested for a list of trust lines that need a fix, in
order, when the counter starts at `c` and is advanced modulo `2^32` after each one. -/
def suggestions (P : Protocol) (a : AccountID) (fees : Option Fees) : Nat → List SLE → List Tx
  | _, [] => []
  | c, o :: tl => suggestedTrustSet P a fees c o :: suggestions P a fees ((c + 1) % 4294967296) tl

/-- The sequence numbers of a list of suggested transactions count up from `s` modulo
`2^32`, and `c` is the next one. -/
def SeqInv (s : Nat) (txs : List Tx) (c : Nat) : Prop :=
  txs.map Tx.Sequence = (List.range txs.length).map (fun i => (s + i) % 4294967296) ∧
    c = (s + txs.length) % 4294967296

/-! ## The validation checks of `doAccountChannels`, one by one -/

/-- The check of `account` on its own: missing, not a string, or not parseable. -/
def accountError (ctx : Context) : Option String :=
  match ctx.params.lookup "account" with
  | none => some "missingAccount"
  | some (.string account) =>
    if (ctx.accountFromStringStrict account).isNone then some "malformedAccount" else none
  | some _ => some "accountNotString"

/-- The check of `destination_account` on its own: present and not a string, or present
and not parseable. -/
def destinationError (ctx : Context) : Option String :=
  match ctx.params.lookup "destination_account" with
  | none => none
  | some (.string d) =>
    if (ctx.accountFromStringStrict d).isNone then some "destinationMalformed" else none
  | some _ => some "destinationNotString"

/-- The check of `limit` on its own, as the handler performs it on the 32-bit value:
present and not an integer, or an integer whose 32-bit value is not positive. -/
def limitError (ctx : Context) : Option String :=
  match ctx.params.lookup "limit" with
  | none => none
  | some (.int64 n) => if toUInt32 n ≤ 0 then some "limitNotPositive" else none
  | some _ => some "limitNotInt"

/-- The check of `marker` on its own: present and not a string, or present and not
parseable hex. -/
def markerError (ctx : Context) : Option String :=
  match ctx.params.lookup "marker" with
  | none => none
  | some (.string m) => if (ctx.parseHex m).isNone then some "malformedCursor" else none
  | some _ => some "markerNotString"

/-- The error of the first failing check in the order account, destination_account, limit,
marker. -/
def firstError (ctx : Context) : Option String :=
  match accountError ctx with
  | some e => some e
  | none =>
    match destinationError ctx with
    | some e => some e
    | none =>
      match limitError ctx with
      | some e => some e
      | none => markerError ctx

/-! ## Sample ledger contents and requests -/

/-- A payment channel of account `1` with the given key and destination. -/
def sampleChannel (key dest : Nat) : SLE :=
  { key := key, getType := LedgerEntryType.ltPAYCHAN, sfAccount := 1, sfDestination := dest }

/-- An offer owned by account `1`: an owned object that is not a payment channel. -/
def sampleOffer (key : Nat) : SLE :=
  { key := key, getType := LedgerEntryType.ltOFFER, sfAccount := 1 }

/-- The record `addChannel` builds for `sampleChannel key dest`. -/
def sampleRecord (key dest : Nat) : Channel :=
  { channel_id := key, account := 1, destination_account := dest, amount := 0, balance := 0,
    public_key := none, public_key_hex := none, settle_delay := 0, expiration := none,
    cancel_after := none, source_tag := none, destination_tag := none }

/-- A context over the ledger `7` in which `rALICE` is account `1`, `rXAVIER` is account
`5`, `rYVES` is account `6`, and the owner directory of every account is `owned`. -/
def sampleContext (params : Request) (owned : List SLE) : Context where
  params := params
  ledgerInfoFromRequest := .ok ⟨7, 99⟩
  accountFromStringStrict := fun s => [("rALICE", 1), ("rXAVIER", 5), ("rYVES", 6)].lookup s
  parseHex := fun s => [("0A", 10), ("14", 20), ("1E", 30)].lookup s
  accountKeylet := fun a => a
  fetchLedgerObject := fun _ _ => none
  fetchFees := fun _ => some ⟨10⟩
  ownedNodes := fun _ _ => owned
  getRequiredString := fun r f =>
    match r.lookup f with
    | some (.string v) => .ok v
    | _ => .error "invalid"
  getUInt := fun r f dfault =>
    match r.lookup f with
    | none => .ok dfault
    | some (.uint64 n) => .ok n
    | some (.int64 n) => .ok n.toNat
    | _ => .error "invalid"
  getBool := fun r f dfault =>
    match r.lookup f with
    | none => .ok dfault
    | some (.bool b) => .ok b
    | _ => .error "invalid"

/-- A trust line between account `1` (low side) and `peer` (high side) in currency `840`
with the given flags. -/
def sampleLine (key peer flags : Nat) : SLE :=
  { key := key, getType := LedgerEntryType.ltRIPPLE_STATE, sfFlags := flags,
    sfLowLimit := ⟨100, 840, 1⟩, sfHighLimit := ⟨50, 840, peer⟩ }

/-- The account root of account `1` with the given sequence and flags. -/
def sampleRoot (seq flags : Nat) : SLE :=
  { key := 1, getType := LedgerEntryType.ltACCOUNT_ROOT, sfAccount := 1, sfFlags := flags,
    sfSequence := seq }

/-- The sample context with the account root `root` stored in the ledger. -/
def sampleRootContext (params : Request) (root : SLE) (owned : List SLE) : Context :=
  { sampleContext params owned with fetchLedgerObject := fun _ _ => some root }

/-! ## Lemmas on `addToResponse` -/

theorem addChannel_eq_append (P : Protocol) (js : List Channel) (o : SLE) :
    addChannel P js o = js ++ addChannel P [] o := by
  simp [addChannel]

theorem foldl_addChannel_append (P : Protocol) (l : List SLE) (js : List Channel) :
    l.foldl (addChannel P) js = js ++ l.foldl (addChannel P) [] := by
  induction l generalizing js with
  | nil => simp
  | cons o tl ih =>
    simp only [List.foldl_cons]
    rw [ih (addChannel P js o), ih (addChannel P [] o), addChannel_eq_append P js o]
    simp

theorem addToResponse_skip (P : Protocol) (a : AccountID) (d : Option AccountID)
    (st : ChannelsState) (o : SLE) (h : channelMatches a d o = false) :
    addToResponse P a d st o = (true, st) := by
  simp [addToResponse, h]

theorem addToResponse_stop (P : Protocol) (a : AccountID) (d : Option AccountID)
    (js : List Channel) (o : SLE) (h : channelMatches a d o = true) :
    addToResponse P a d ⟨0, js⟩ o = (false, ⟨4294967295, js⟩) := by
  simp [addToResponse, h]

theorem addToResponse_take (P : Protocol) (a : AccountID) (d : Option AccountID)
    (k : Nat) (js : List Channel) (o : SLE) (h : channelMatches a d o = true)
    (hk : k + 1 < 4294967296) :
    addToResponse P a d ⟨k + 1, js⟩ o = (true, ⟨k, addChannel P js o⟩) := by
  have h1 : (k + 1 + 4294967295) % 4294967296 = k := by omega
  simp [addToResponse, h, h1]

theorem offer_channels (P : Protocol) (a : AccountID) (d : Option AccountID)
    (objs : List SLE) (L : Nat) (hL : L < 4294967296) (js : List Channel) :
    (offerUntilStop (addToResponse P a d) ⟨L, js⟩ objs).2.jsonChannels =
      ((objs.filter (channelMatches a d)).take L).foldl (addChannel P) js := by
  induction objs generalizing L js with
  | nil => simp [offerUntilStop]
  | cons o tl ih =>
    cases hm : channelMatches a d o with
    | false =>
      simp only [offerUntilStop, addToResponse_skip P a d _ o hm]
      rw [ih L hL js]
      simp [List.filter_cons, hm]
    | true =>
      cases L with
      | zero =>
        simp [offerUntilStop, addToResponse_stop P a d js o hm]
      | succ k =>
        simp only [offerUntilStop, addToResponse_take P a d k js o hm hL]
        rw [ih k (by omega) (addChannel P js o)]
        simp [List.filter_cons, hm]

theorem offer_stop_iff (P : Protocol) (a : AccountID) (d : Option AccountID)
    (objs : List SLE) (L : Nat) (hL : L < 4294967296) (js : List Channel) (rest : List SLE) :
    (offerUntilStop (addToResponse P a d) ⟨L, js⟩ objs).1 = some rest ↔
      ∃ pre o, objs = pre ++ o :: rest ∧ channelMatches a d o = true ∧
        (pre.filter (channelMatches a d)).length = L := by
  induction objs generalizing L js with
  | nil => simp [offerUntilStop]
  | cons o tl ih =>
    cases hm : channelMatches a d o with
    | false =>
      simp only [offerUntilStop, addToResponse_skip P a d _ o hm]
      rw [ih L hL js]
      constructor
      · rintro ⟨pre, o1, h1, h2, h3⟩
        exact ⟨o :: pre, o1, by simp [h1], h2, by simp [List.filter_cons, hm, h3]⟩
      · rintro ⟨pre, o1, h1, h2, h3⟩
        cases pre with
        | nil =>
          simp only [List.nil_append, List.cons.injEq] at h1
          rw [← h1.1, hm] at h2
          exact absurd h2 (by simp)
        | cons p pre1 =>
          simp only [List.cons_append, List.cons.injEq] at h1
          refine ⟨pre1, o1, h1.2, h2, ?_⟩
          rw [← h1.1] at h3
          simpa [List.filter_cons, hm] using h3
    | true =>
      cases L with
      | zero =>
        simp only [offerUntilStop, addToResponse_stop P a d js o hm]
        constructor
        · intro h
          simp only [Option.some.injEq] at h
          exact ⟨[], o, by simp [h], hm, by simp⟩
        · rintro ⟨pre, o1, h1, _, h3⟩
          cases pre with
          | nil =>
            simp only [List.nil_append, List.cons.injEq] at h1
            simp [h1.2]
          | cons p pre1 =>
            simp only [List.cons_append, List.cons.injEq] at h1
            rw [← h1.1] at h3
            simp [List.filter_cons, hm] at h3
      | succ k =>
        simp only [offerUntilStop, addToResponse_take P a d k js o hm hL]
        rw [ih k (by omega) (addChannel P js o)]
        constructor
        · rintro ⟨pre, o1, h1, h2, h3⟩
          exact ⟨o :: pre, o1, by simp [h1], h2, by simp [List.filter_cons, hm, h3]⟩
        · rintro ⟨pre, o1, h1, h2, h3⟩
          cases pre with
          | nil => simp at h3
          | cons p pre1 =>
            simp only [List.cons_append, List.cons.injEq] at h1
            refine ⟨pre1, o1, h1.2, h2, ?_⟩
            rw [← h1.1] at h3
            simpa [List.filter_cons, hm] using h3

theorem offer_none_iff (P : Protocol) (a : AccountID) (d : Option AccountID)
    (objs : List SLE) (L : Nat) (hL : L < 4294967296) (js : List Channel) :
    (offerUntilStop (addToResponse P a d) ⟨L, js⟩ objs).1 = none ↔
      (objs.filter (channelMatches a d)).length ≤ L := by
  induction objs generalizing L js with
  | nil => simp [offerUntilStop]
  | cons o tl ih =>
    cases hm : channelMatches a d o with
    | false =>
      simp only [offerUntilStop, addToResponse_skip P a d _ o hm]
      rw [ih L hL js]
      simp [List.filter_cons, hm]
    | true =>
      cases L with
      | zero =>
        simp [offerUntilStop, addToResponse_stop P a d js o hm, List.filter_cons, hm]
      | succ k =>
        simp only [offerUntilStop, addToResponse_take P a d k js o hm hL]
        rw [ih k (by omega) (addChannel P js o)]
        simp [List.filter_cons, hm]

theorem channelMatches_iff (a : AccountID) (d : Option AccountID) (o : SLE) :
    channelMatches a d o = true ↔
      o.getType = LedgerEntryType.ltPAYCHAN ∧ o.sfAccount = a ∧
        (∀ x, d = some x → o.sfDestination = x) := by
  cases d with
  | none => simp [channelMatches]
  | some y =>
    simp only [channelMatches, Bool.and_eq_true, beq_iff_eq, Bool.or_eq_true,
      Option.isNone_some, Option.some.injEq, Bool.false_eq_true, false_or, and_assoc]
    constructor
    · rintro ⟨h1, h2, h3⟩
      exact ⟨h1, h2, fun x hx => by rw [← hx, h3]⟩
    · rintro ⟨h1, h2, h3⟩
      exact ⟨h1, h2, (h3 y rfl).symm⟩

/-! ## Budget enforcement of `addToResponse` -/

/-- C2: for every list of owned objects and every limit `L` that fits the 32-bit budget,
offering the list to `addToResponse` until it first returns `false` leaves in
`jsonChannels` exactly the records of the first `min L m` matching objects in scan order
(`m` the number of matching objects); the callback returns `false` exactly on the
`(L+1)`-th matching object (the object preceded by exactly `L` matching ones), and never
when at most `L` objects match; on the call that returns `false` nothing is appended; an
object that does not match leaves budget and array unchanged and returns `true`; matching
means type payment channel, source account equal to the requested account and destination
equal to the filter when one is set. -/
theorem addToResponse_budget (P : Protocol) (a : AccountID) (d : Option AccountID)
    (objs : List SLE) (L : Nat) (hL : L < 4294967296) :
    (offerUntilStop (addToResponse P a d) ⟨L, []⟩ objs).2.jsonChannels =
        ((objs.filter (channelMatches a d)).take
          (min L (objs.filter (channelMatches a d)).length)).foldl (addChannel P) [] ∧
      (∀ rest, (offerUntilStop (addToResponse P a d) ⟨L, []⟩ objs).1 = some rest ↔
        ∃ pre o, objs = pre ++ o :: rest ∧ channelMatches a d o = true ∧
          (pre.filter (channelMatches a d)).length = L) ∧
      ((offerUntilStop (addToResponse P a d) ⟨L, []⟩ objs).1 = none ↔
        (objs.filter (channelMatches a d)).length ≤ L) ∧
      (∀ st o, (addToResponse P a d st o).1 = false →
        (addToResponse P a d st o).2.jsonChannels = st.jsonChannels) ∧
      (∀ st o, channelMatches a d o = false → addToResponse P a d st o = (true, st)) ∧
      (∀ o, channelMatches a d o = true ↔
        o.getType = LedgerEntryType.ltPAYCHAN ∧ o.sfAccount = a ∧
          (∀ x, d = some x → o.sfDestination = x)) := by
  refine ⟨?_, fun rest => offer_stop_iff P a d objs L hL [] rest,
    offer_none_iff P a d objs L hL [], ?_, fun st o h => addToResponse_skip P a d st o h,
    fun o => channelMatches_iff a d o⟩
  · rw [offer_channels P a d objs L hL []]
    congr 1
    rw [List.take_eq_take]
    simp
  · intro st o h
    unfold addToResponse at h ⊢
    split at h
    · split at h
      · simp_all
      · simp at h
    · simp at h

/-- Witness of C2: account `1` owns a channel, an offer and two more channels; with limit
`2` the first two channels are recorded. -/
theorem addToResponse_budget_witness :
    (offerUntilStop (addToResponse rippled 1 none) ⟨2, []⟩
        [sampleChannel 10 5, sampleOffer 15, sampleChannel 20 6, sampleChannel 30 5]).2.jsonChannels
      = [sampleRecord 10 5, sampleRecord 20 6] := by
  have h := (addToResponse_budget rippled 1 none
    [sampleChannel 10 5, sampleOffer 15, sampleChannel 20 6, sampleChannel 30 5] 2 (by decide)).1
  rw [h]
  decide

/-! ## Resumption of `doAccountChannels` -/

/-- C3 at a failing input: account `rALICE` owns exactly the two channels with keys `10`
and `20`, and an offer with key `30`. The call with limit `1` and no marker returns the
first channel and the marker `30` (hex `1E`), not the key `20` of the second channel, and
the call with that marker returns no channel and no marker, so the second channel is never
returned. -/
theorem doAccountChannels_two_channels_limit_one :
    doAccountChannels rippled
        (sampleContext [("account", .string "rALICE"), ("limit", .int64 1)]
          [sampleChannel 10 5, sampleChannel 20 6, sampleOffer 30]) =
      .ok { account := 1, channels := [sampleRecord 10 5], ledger_hash := 99,
            ledger_index := 7, marker := some 30 } ∧
    doAccountChannels rippled
        (sampleContext [("account", .string "rALICE"), ("limit", .int64 1),
            ("marker", .string "1E")]
          [sampleChannel 10 5, sampleChannel 20 6, sampleOffer 30]) =
      .ok { account := 1, channels := [], ledger_hash := 99,
            ledger_index := 7, marker := none } := by
  exact ⟨rfl, rfl⟩

/-- C1 at a failing input: account `rALICE` owns three channels with keys `10`, `20` and
`30`. With limit `1` the first call returns the channel `10` and the marker `30` (hex
`1E`), the call with that marker returns the channel `30` and no marker, and the two pages
together miss the channel `20`, which one call with the default limit returns. -/
theorem doAccountChannels_pages_omit_channel :
    doAccountChannels rippled
        (sampleContext [("account", .string "rALICE"), ("limit", .int64 1)]
          [sampleChannel 10 5, sampleChannel 20 6, sampleChannel 30 5]) =
      .ok { account := 1, channels := [sampleRecord 10 5], ledger_hash := 99,
            ledger_index := 7, marker := some 30 } ∧
    doAccountChannels rippled
        (sampleContext [("account", .string "rALICE"), ("limit", .int64 1),
            ("marker", .string "1E")]
          [sampleChannel 10 5, sampleChannel 20 6, sampleChannel 30 5]) =
      .ok { account := 1, channels := [sampleRecord 30 5], ledger_hash := 99,
            ledger_index := 7, marker := none } ∧
    doAccountChannels rippled
        (sampleContext [("account", .string "rALICE")]
          [sampleChannel 10 5, sampleChannel 20 6, sampleChannel 30 5]) =
      .ok { account := 1, channels := [sampleRecord 10 5, sampleRecord 20 6, sampleRecord 30 5],
            ledger_hash := 99, ledger_index := 7, marker := none } := by
  exact ⟨rfl, rfl, rfl⟩

theorem traverse_snd {σ : Type} (pastEnd : Nat) (owned : List SLE) (cursor : Nat)
    (cb : σ → SLE → Bool × σ) (s : σ) :
    (traverseOwnedNodes pastEnd owned cursor cb s).2 =
      (offerUntilStop cb s (owned.filter (fun o => decide (cursor ≤ o.key)))).2 := by
  unfold traverseOwnedNodes
  rcases offerUntilStop cb s (owned.filter (fun o => decide (cursor ≤ o.key))) with ⟨r, s1⟩
  cases r <;> rfl

theorem traverse_fst {σ : Type} (pastEnd : Nat) (owned : List SLE) (cursor : Nat)
    (cb : σ → SLE → Bool × σ) (s : σ) :
    (traverseOwnedNodes pastEnd owned cursor cb s).1 =
      (offerUntilStop cb s (owned.filter (fun o => decide (cursor ≤ o.key)))).1.map
        (fun rest => (rest.head?.map SLE.key).getD pastEnd) := by
  unfold traverseOwnedNodes
  rcases offerUntilStop cb s (owned.filter (fun o => decide (cursor ≤ o.key))) with ⟨r, s1⟩
  cases r <;> rfl

/-- When the response of the channel listing carries a marker, more than `limit` payment
channels match at or after the cursor. -/
theorem channelsResponse_marker_more (P : Protocol) (p : ChannelsParams) (owned : List SLE)
    (hL : p.limit < 4294967296) (k : Nat) (hk : (channelsResponse P p owned).marker = some k) :
    p.limit < ((owned.filter (fun o => decide (p.marker ≤ o.key))).filter
      (channelMatches p.accountID p.destAccount)).length := by
  simp only [channelsResponse] at hk
  rw [traverse_fst] at hk
  by_contra hcon
  have hnone := (offer_none_iff P p.accountID p.destAccount
    (owned.filter (fun o => decide (p.marker ≤ o.key))) p.limit hL []).mpr (by omega)
  rw [hnone] at hk
  simp at hk

theorem foldl_addChannel_length (P : Protocol) (l : List SLE) (js : List Channel) :
    (l.foldl (addChannel P) js).length = js.length + l.length := by
  induction l generalizing js with
  | nil => simp
  | cons o tl ih =>
    rw [List.foldl_cons, ih]
    simp [addChannel]
    omega

/-- C10: for every account, cursor, list of owned objects, destination filter and limit
`L` of the 32-bit budget, the response carries a marker if and only if more than `L`
payment channels match at or after the cursor, and `channels` holds `min L m` records
(`m` the number of matching channels at or after the cursor), which is `L` whenever a
marker is present. -/
theorem channelsResponse_marker_iff (P : Protocol) (p : ChannelsParams) (owned : List SLE)
    (hL : p.limit < 4294967296) :
    ((channelsResponse P p owned).marker.isSome = true ↔
      p.limit < ((owned.filter (fun o => decide (p.marker ≤ o.key))).filter
        (channelMatches p.accountID p.destAccount)).length) ∧
    (channelsResponse P p owned).channels.length =
      min p.limit ((owned.filter (fun o => decide (p.marker ≤ o.key))).filter
        (channelMatches p.accountID p.destAccount)).length ∧
    ((channelsResponse P p owned).marker.isSome = true →
      (channelsResponse P p owned).channels.length = p.limit) := by
  have hnone := offer_none_iff P p.accountID p.destAccount
    (owned.filter (fun o => decide (p.marker ≤ o.key))) p.limit hL []
  have hmark : (channelsResponse P p owned).marker.isSome = true ↔
      p.limit < ((owned.filter (fun o => decide (p.marker ≤ o.key))).filter
        (channelMatches p.accountID p.destAccount)).length := by
    simp only [channelsResponse]
    rw [traverse_fst, Option.isSome_map', Option.isSome_iff_ne_none, ne_eq, hnone]
    omega
  have hlen : (channelsResponse P p owned).channels.length =
      min p.limit ((owned.filter (fun o => decide (p.marker ≤ o.key))).filter
        (channelMatches p.accountID p.destAccount)).length := by
    simp only [channelsResponse]
    rw [traverse_snd, offer_channels P p.accountID p.destAccount _ p.limit hL [],
      foldl_addChannel_length, List.length_take]
    simp
  refine ⟨hmark, hlen, fun h => ?_⟩
  rw [hlen]
  have := hmark.mp h
  omega

/-- Witness of C10: account `1` owns three channels; with limit `1` from the start the
response carries a marker. -/
theorem channelsResponse_marker_iff_witness :
    (channelsResponse rippled ⟨⟨7, 99⟩, 1, none, 1, 0⟩
      [sampleChannel 10 5, sampleChannel 20 6, sampleChannel 30 5]).marker.isSome = true :=
  (channelsResponse_marker_iff rippled ⟨⟨7, 99⟩, 1, none, 1, 0⟩
    [sampleChannel 10 5, sampleChannel 20 6, sampleChannel 30 5] (by decide)).1.mpr
    (by decide)

/-! ## Limit validation of `doAccountChannels` -/

/-- C4 at a failing input: the request with `limit = -1` is not rejected; the limit is
converted to the 32-bit value `4294967295`, which passes `limit <= 0`, and is used as the
budget. The positive limit `4294967296` converts to `0` and is rejected. -/
theorem channelsParams_negative_limit_accepted :
    channelsParams (sampleContext [("account", .string "rALICE"), ("limit", .int64 (-1))] []) =
      .ok { lgrInfo := ⟨7, 99⟩, accountID := 1, destAccount := none,
            limit := 4294967295, marker := 0 } ∧
    channelsParams
        (sampleContext [("account", .string "rALICE"), ("limit", .int64 4294967296)] []) =
      .error ⟨.rpcINVALID_PARAMS, "limitNotPositive"⟩ := by
  exact ⟨rfl, rfl⟩

/-! ## The scan callback of `doNoRippleCheck` -/

theorem offer_invariant {σ α : Type} (cb : σ → α → Bool × σ) (Inv : σ → Prop)
    (hstep : ∀ s o, Inv s → Inv (cb s o).2) (l : List α) (s : σ) (h : Inv s) :
    Inv (offerUntilStop cb s l).2 := by
  induction l generalizing s with
  | nil => simpa [offerUntilStop] using h
  | cons o tl ih =>
    have h1 := hstep s o h
    unfold offerUntilStop
    rcases hc : cb s o with ⟨b, s1⟩
    rw [hc] at h1
    cases b with
    | true => exact ih s1 h1
    | false => exact h1

/-- C5, as the code has it: for every trust-line object offered to the scan callback, with
the no-ripple bit of the side the account occupies: role gateway and bit set appends the
finding that starts with the recommendation to clear the flag; role gateway and bit unset
leaves the captured state unchanged and continues; role user and bit unset appends the
finding that starts with the recommendation to set the flag; role user and bit set leaves
the captured state unchanged and continues. -/
theorem checkOwnedItem_classification (P : Protocol) (a : AccountID) (includeTxs : Bool)
    (fees : Option Fees) (st : NoRippleState) (o : SLE)
    (ht : o.getType = LedgerEntryType.ltRIPPLE_STATE) :
    (noRippleBit P a o = true →
      (checkOwnedItem P a true includeTxs fees st o).2.problems = st.problems ++
        ["You should clear the no ripple flag on your " ++
          P.currencyToString (if isLow a o then o.sfHighLimit else o.sfLowLimit).currency ++
          " line to " ++
          P.accountToString (if isLow a o then o.sfHighLimit else o.sfLowLimit).issuer]) ∧
    (noRippleBit P a o = false →
      checkOwnedItem P a true includeTxs fees st o = (true, st)) ∧
    (noRippleBit P a o = false →
      (checkOwnedItem P a false includeTxs fees st o).2.problems = st.problems ++
        ["You should probably set the no ripple flag on your " ++
          P.currencyToString (if isLow a o then o.sfHighLimit else o.sfLowLimit).currency ++
          " line to " ++
          P.accountToString (if isLow a o then o.sfHighLimit else o.sfLowLimit).issuer]) ∧
    (noRippleBit P a o = true →
      checkOwnedItem P a false includeTxs fees st o = (true, st)) := by
  refine ⟨fun hb => ?_, fun hb => ?_, fun hb => ?_, fun hb => ?_⟩
  · cases includeTxs <;> by_cases hl : st.limit = 0 <;>
      simp [checkOwnedItem, ht, hb, classify, hl]
  · simp [checkOwnedItem, ht, hb, classify]
  · cases includeTxs <;> by_cases hl : st.limit = 0 <;>
      simp [checkOwnedItem, ht, hb, classify, hl]
  · simp [checkOwnedItem, ht, hb, classify]

/-- Witness of C5: the trust line of account `1` with its low no-ripple flag set, offered
with role gateway. -/
theorem checkOwnedItem_classification_witness :
    (checkOwnedItem rippled 1 true false none ⟨[], 5, 300, []⟩
        (sampleLine 10 2 0x00100000)).2.problems = [] ++
      ["You should clear the no ripple flag on your " ++
        rippled.currencyToString
          (if isLow 1 (sampleLine 10 2 0x00100000) then (sampleLine 10 2 0x00100000).sfHighLimit
            else (sampleLine 10 2 0x00100000).sfLowLimit).currency ++
        " line to " ++
        rippled.accountToString
          (if isLow 1 (sampleLine 10 2 0x00100000) then (sampleLine 10 2 0x00100000).sfHighLimit
            else (sampleLine 10 2 0x00100000).sfLowLimit).issuer] :=
  (checkOwnedItem_classification rippled 1 false none ⟨[], 5, 300, []⟩
    (sampleLine 10 2 0x00100000) rfl).1 (by decide)

/-- C5 as stated fails: for role gateway a trust line whose no-ripple bit is set produces a
finding, and one whose bit is unset produces none; for role user a trust line whose bit is
unset produces a finding and one whose bit is set produces none. -/
theorem checkOwnedItem_gateway_bit_set_finding :
    noRippleBit rippled 1 (sampleLine 10 2 0x00100000) = true ∧
    noRippleBit rippled 1 (sampleLine 10 2 0) = false ∧
    (checkOwnedItem rippled 1 true false none ⟨[], 5, 300, []⟩
      (sampleLine 10 2 0x00100000)).2.problems.length = 1 ∧
    (checkOwnedItem rippled 1 true false none ⟨[], 5, 300, []⟩
      (sampleLine 10 2 0)).2.problems.length = 0 ∧
    (checkOwnedItem rippled 1 false false none ⟨[], 5, 300, []⟩
      (sampleLine 10 2 0)).2.problems.length = 1 ∧
    (checkOwnedItem rippled 1 false false none ⟨[], 5, 300, []⟩
      (sampleLine 10 2 0x00100000)).2.problems.length = 0 := by
  decide

/-- C6 at a failing input: a gateway account with its default-ripple flag set (no
pre-check finding) owns two trust lines whose no-ripple flag is set; with limit `1` the
scan records two findings. With limit `0` and one such trust line it records one. -/
theorem doNoRippleCheck_findings_exceed_limit :
    (doNoRippleCheck rippled
        (sampleRootContext
          [("account", .string "rALICE"), ("role", .string "gateway"), ("limit", .int64 1)]
          (sampleRoot 5 0x00800000)
          [sampleLine 10 2 0x00100000, sampleLine 20 3 0x00100000])).toOption.map
      (fun r => r.problems.length) = some 2 ∧
    (doNoRippleCheck rippled
        (sampleRootContext
          [("account", .string "rALICE"), ("role", .string "gateway"), ("limit", .int64 0)]
          (sampleRoot 5 0x00800000)
          [sampleLine 10 2 0x00100000])).toOption.map
      (fun r => r.problems.length) = some 1 := by
  exact ⟨rfl, rfl⟩

theorem checkOwnedItem_fix (P : Protocol) (a : AccountID) (roleGateway includeTxs : Bool)
    (fees : Option Fees) (st : NoRippleState) (o : SLE)
    (ht : o.getType = LedgerEntryType.ltRIPPLE_STATE)
    (hc : (classify (noRippleBit P a o) roleGateway).2 = true) :
    checkOwnedItem P a roleGateway includeTxs fees st o =
      (!(st.limit == 0),
        { transactions := st.transactions ++
            (if includeTxs then [suggestedTrustSet P a fees st.accountSeq o] else []),
          accountSeq := if includeTxs then (st.accountSeq + 1) % 4294967296 else st.accountSeq,
          limit := (st.limit + 18446744073709551615) % 18446744073709551616,
          problems := st.problems ++ [findingText P a roleGateway o] }) := by
  unfold checkOwnedItem findingText suggestedTrustSet
  simp only [ht, beq_self_eq_true, if_true, hc]
  cases includeTxs <;> by_cases hl : st.limit = 0 <;> simp [hl, getBaseTx]

theorem checkOwnedItem_nofix (P : Protocol) (a : AccountID) (roleGateway includeTxs : Bool)
    (fees : Option Fees) (st : NoRippleState) (o : SLE)
    (h : ¬ (o.getType = LedgerEntryType.ltRIPPLE_STATE ∧
      (classify (noRippleBit P a o) roleGateway).2 = true)) :
    checkOwnedItem P a roleGateway includeTxs fees st o = (true, st) := by
  by_cases ht : o.getType = LedgerEntryType.ltRIPPLE_STATE
  · have hc : ¬ (classify (noRippleBit P a o) roleGateway).2 = true := fun hc => h ⟨ht, hc⟩
    simp [checkOwnedItem, ht, hc]
  · simp [checkOwnedItem, ht]

theorem checkOwnedItem_appends (P : Protocol) (a : AccountID) (roleGateway includeTxs : Bool)
    (fees : Option Fees) (st : NoRippleState) (o : SLE) :
    ∃ ps ts, (checkOwnedItem P a roleGateway includeTxs fees st o).2.problems =
        st.problems ++ ps ∧
      (checkOwnedItem P a roleGateway includeTxs fees st o).2.transactions =
        st.transactions ++ ts := by
  by_cases h : o.getType = LedgerEntryType.ltRIPPLE_STATE ∧
      (classify (noRippleBit P a o) roleGateway).2 = true
  · rw [checkOwnedItem_fix P a roleGateway includeTxs fees st o h.1 h.2]
    exact ⟨_, _, rfl, rfl⟩
  · rw [checkOwnedItem_nofix P a roleGateway includeTxs fees st o h]
    exact ⟨[], [], by simp, by simp⟩

theorem scanPhase_appends (P : Protocol) (a : AccountID) (roleGateway includeTxs : Bool)
    (fees : Option Fees) (st : NoRippleState) (owned : List SLE) :
    ∃ ps ts, (scanPhase P a roleGateway includeTxs fees st owned).problems = st.problems ++ ps ∧
      (scanPhase P a roleGateway includeTxs fees st owned).transactions =
        st.transactions ++ ts := by
  unfold scanPhase
  rw [traverse_snd]
  refine offer_invariant (checkOwnedItem P a roleGateway includeTxs fees)
    (fun s => ∃ ps ts, s.problems = st.problems ++ ps ∧ s.transactions = st.transactions ++ ts)
    ?_ _ st ⟨[], [], by simp, by simp⟩
  rintro s o ⟨ps, ts, h1, h2⟩
  obtain ⟨ps1, ts1, h3, h4⟩ := checkOwnedItem_appends P a roleGateway includeTxs fees s o
  exact ⟨ps ++ ps1, ts ++ ts1, by rw [h3, h1, List.append_assoc],
    by rw [h4, h2, List.append_assoc]⟩

/-! ## The pre-check of `doNoRippleCheck` -/

/-- C9, as the code has it: the pre-check on the account root. Role gateway with the
default-ripple flag unset: `problems` is exactly the one pre-check finding; when
transactions are requested `transactions` is exactly one `AccountSet` transaction with
`SetFlag = 8` whose `Sequence` is the sequence of the account root, and the counter is that
sequence plus one modulo `2^32` (plainly plus one below the largest 32-bit value); when
they are not requested there is no transaction. Role user with the flag set: exactly one
pre-check finding, no transaction, counter unchanged. In the two remaining cases: no
finding, no transaction, counter unchanged. The scan that follows only appends, so the
`problems` and `transactions` of the response begin with those of the pre-check. -/
theorem preCheck_cases (P : Protocol) (a : AccountID) (includeTxs : Bool)
    (fees : Option Fees) (limit : Nat) (sle : SLE) :
    ((sle.sfFlags &&& P.lsfDefaultRipple != 0) = false →
      (preCheck P a true includeTxs fees limit sle).problems =
          ["You should immediately set your default ripple flag"] ∧
        (includeTxs = true →
          (preCheck P a true includeTxs fees limit sle).transactions =
              [{ Sequence := sle.sfSequence, Account := a, Fee := (derefFees fees).units,
                 TransactionType := some "AccountSet", SetFlag := some 8 }] ∧
            (preCheck P a true includeTxs fees limit sle).accountSeq =
              (sle.sfSequence + 1) % 4294967296 ∧
            (sle.sfSequence + 1 < 4294967296 →
              (preCheck P a true includeTxs fees limit sle).accountSeq = sle.sfSequence + 1)) ∧
        (includeTxs = false →
          (preCheck P a true includeTxs fees limit sle).transactions = [] ∧
            (preCheck P a true includeTxs fees limit sle).accountSeq = sle.sfSequence)) ∧
    ((sle.sfFlags &&& P.lsfDefaultRipple != 0) = true →
      (preCheck P a false includeTxs fees limit sle).problems =
          ["You appear to have set your default ripple flag even though you are not a gateway. This is not recommended unless you are experimenting"] ∧
        (preCheck P a false includeTxs fees limit sle).transactions = [] ∧
        (preCheck P a false includeTxs fees limit sle).accountSeq = sle.sfSequence) ∧
    ((sle.sfFlags &&& P.lsfDefaultRipple != 0) = true →
      (preCheck P a true includeTxs fees limit sle).problems = [] ∧
        (preCheck P a true includeTxs fees limit sle).transactions = [] ∧
        (preCheck P a true includeTxs fees limit sle).accountSeq = sle.sfSequence) ∧
    ((sle.sfFlags &&& P.lsfDefaultRipple != 0) = false →
      (preCheck P a false includeTxs fees limit sle).problems = [] ∧
        (preCheck P a false includeTxs fees limit sle).transactions = [] ∧
        (preCheck P a false includeTxs fees limit sle).accountSeq = sle.sfSequence) ∧
    (∀ (roleGateway : Bool) (lgrInfo : LedgerInfo) (owned : List SLE), ∃ ps ts,
      (noRippleResponse P a roleGateway includeTxs fees limit lgrInfo sle owned).problems =
          (preCheck P a roleGateway includeTxs fees limit sle).problems ++ ps ∧
        (noRippleResponse P a roleGateway includeTxs fees limit lgrInfo sle owned).transactions =
          if includeTxs then
            some ((preCheck P a roleGateway includeTxs fees limit sle).transactions ++ ts)
          else none) := by
  refine ⟨fun h => ⟨?_, fun ht => ?_, fun ht => ?_⟩, fun h => ?_, fun h => ?_, fun h => ?_,
    fun roleGateway lgrInfo owned => ?_⟩
  rotate_right
  · obtain ⟨ps, ts, h1, h2⟩ := scanPhase_appends P a roleGateway includeTxs fees
      (preCheck P a roleGateway includeTxs fees limit sle) owned
    refine ⟨ps, ts, ?_, ?_⟩
    · simp only [noRippleResponse, h1]
    · simp only [noRippleResponse, h2]
  · cases includeTxs <;> simp [preCheck, h]
  · subst ht
    refine ⟨by simp [preCheck, h, getBaseTx], by simp [preCheck, h], fun hlt => ?_⟩
    simp only [preCheck, h]
    simp
    omega
  · subst ht
    simp [preCheck, h]
  · simp [preCheck, h]
  · simp [preCheck, h]
  · simp [preCheck, h]

/-- Witness of C9: the root of account `1` with sequence `5` and no flags, role gateway,
transactions requested. -/
theorem preCheck_cases_witness :
    (preCheck rippled 1 true true (some ⟨10⟩) 300 (sampleRoot 5 0)).problems =
        ["You should immediately set your default ripple flag"] ∧
      (preCheck rippled 1 true true (some ⟨10⟩) 300 (sampleRoot 5 0)).transactions =
        [{ Sequence := 5, Account := 1, Fee := 10,
           TransactionType := some "AccountSet", SetFlag := some 8 }] ∧
      (preCheck rippled 1 true true (some ⟨10⟩) 300 (sampleRoot 5 0)).accountSeq = 6 :=
  have h := (preCheck_cases rippled 1 true (some ⟨10⟩) 300 (sampleRoot 5 0)).1 (by decide)
  ⟨h.1, (h.2.1 rfl).1, (h.2.1 rfl).2.2 (by decide)⟩

/-- C9 as stated fails: for a gateway account whose root has the 32-bit sequence
`4294967295` and the default-ripple flag unset, with transactions requested, the suggested
`AccountSet` carries `Sequence = 4294967295` and the counter used for later suggestions is
`0`, not that sequence plus one. -/
theorem preCheck_counter_wraps :
    ((sampleRoot 4294967295 0).sfFlags &&& rippled.lsfDefaultRipple != 0) = false ∧
    (preCheck rippled 1 true true (some ⟨10⟩) 300 (sampleRoot 4294967295 0)).transactions.map
      Tx.Sequence = [4294967295] ∧
    (preCheck rippled 1 true true (some ⟨10⟩) 300 (sampleRoot 4294967295 0)).accountSeq = 0 ∧
    (preCheck rippled 1 true true (some ⟨10⟩) 300 (sampleRoot 4294967295 0)).accountSeq ≠
      (sampleRoot 4294967295 0).sfSequence + 1 := by
  decide

/-! ## Sequence numbers of the suggested transactions -/

theorem seqInv_preCheck (P : Protocol) (a : AccountID) (roleGateway : Bool)
    (fees : Option Fees) (limit : Nat) (sle : SLE) (hs : sle.sfSequence < 4294967296) :
    SeqInv sle.sfSequence (preCheck P a roleGateway true fees limit sle).transactions
      (preCheck P a roleGateway true fees limit sle).accountSeq := by
  have h0 : sle.sfSequence % 4294967296 = sle.sfSequence := Nat.mod_eq_of_lt hs
  unfold preCheck
  simp only []
  split
  · simp [SeqInv, h0]
  · split
    · simp [SeqInv, h0, getBaseTx, List.range_succ]
    · simp [SeqInv, h0]

theorem checkOwnedItem_transactions (P : Protocol) (a : AccountID) (roleGateway : Bool)
    (fees : Option Fees) (st : NoRippleState) (o : SLE) :
    ((checkOwnedItem P a roleGateway true fees st o).2.transactions = st.transactions ∧
      (checkOwnedItem P a roleGateway true fees st o).2.accountSeq = st.accountSeq) ∨
    (∃ tx : Tx, tx.Sequence = st.accountSeq ∧
      (checkOwnedItem P a roleGateway true fees st o).2.transactions = st.transactions ++ [tx] ∧
      (checkOwnedItem P a roleGateway true fees st o).2.accountSeq =
        (st.accountSeq + 1) % 4294967296) := by
  by_cases ht : o.getType = LedgerEntryType.ltRIPPLE_STATE
  · by_cases hc : (classify (noRippleBit P a o) roleGateway).2 = true
    · right
      by_cases hl : st.limit = 0 <;> simp [checkOwnedItem, ht, hc, hl, getBaseTx]
    · left
      simp [checkOwnedItem, ht, hc]
  · left
    simp [checkOwnedItem, ht]

theorem seqInv_checkOwnedItem (P : Protocol) (a : AccountID) (roleGateway : Bool)
    (fees : Option Fees) (s : Nat) (st : NoRippleState) (o : SLE)
    (h : SeqInv s st.transactions st.accountSeq) :
    SeqInv s (checkOwnedItem P a roleGateway true fees st o).2.transactions
      (checkOwnedItem P a roleGateway true fees st o).2.accountSeq := by
  rcases checkOwnedItem_transactions P a roleGateway fees st o with h1 | ⟨tx, h1, h2, h3⟩
  · rw [h1.1, h1.2]
    exact h
  · rw [h2, h3]
    obtain ⟨h4, h5⟩ := h
    refine ⟨?_, ?_⟩
    · simp only [List.map_append, h4, List.length_append, List.length_singleton,
        List.range_succ, List.map_cons, List.map_nil, h1, h5]
    · rw [h5]
      simp only [List.length_append, List.length_singleton]
      omega

theorem seqInv_scanPhase (P : Protocol) (a : AccountID) (roleGateway : Bool)
    (fees : Option Fees) (s : Nat) (st : NoRippleState) (owned : List SLE)
    (h : SeqInv s st.transactions st.accountSeq) :
    SeqInv s (scanPhase P a roleGateway true fees st owned).transactions
      (scanPhase P a roleGateway true fees st owned).accountSeq := by
  unfold scanPhase
  rw [traverse_snd]
  exact offer_invariant (checkOwnedItem P a roleGateway true fees)
    (fun st => SeqInv s st.transactions st.accountSeq)
    (fun st o hst => seqInv_checkOwnedItem P a roleGateway fees s st o hst) _ st h

/-- C7, as the code has it: for every account root whose sequence `s` is a 32-bit value,
every role and every list of owned objects, with transactions requested the response has a
`transactions` array whose `Sequence` fields are, in array order, `s`, `s + 1`, `s + 2`,
... reduced modulo `2^32`; the first one, if any, is `s`; and they are strictly increasing
whenever `s` plus the number of transactions does not exceed `2^32`. -/
theorem noRippleResponse_sequences (P : Protocol) (a : AccountID) (roleGateway : Bool)
    (fees : Option Fees) (limit : Nat) (lgrInfo : LedgerInfo) (sle : SLE) (owned : List SLE)
    (hs : sle.sfSequence < 4294967296) :
    ∃ txs, (noRippleResponse P a roleGateway true fees limit lgrInfo sle owned).transactions =
        some txs ∧
      txs.map Tx.Sequence =
        (List.range txs.length).map (fun i => (sle.sfSequence + i) % 4294967296) ∧
      (∀ tx, txs.head? = some tx → tx.Sequence = sle.sfSequence) ∧
      (sle.sfSequence + txs.length ≤ 4294967296 →
        (txs.map Tx.Sequence).Pairwise (fun x y => x < y)) := by
  have hinv := seqInv_scanPhase P a roleGateway fees sle.sfSequence _ owned
    (seqInv_preCheck P a roleGateway fees limit sle hs)
  refine ⟨_, by simp only [noRippleResponse, if_true], hinv.1, ?_, ?_⟩
  · intro tx htx
    have h1 := hinv.1
    generalize (scanPhase P a roleGateway true fees
      (preCheck P a roleGateway true fees limit sle) owned).transactions = txs at h1 htx
    cases txs with
    | nil => simp at htx
    | cons t tl =>
      simp only [List.head?_cons, Option.some.injEq] at htx
      subst htx
      simp only [List.map_cons, List.length_cons, List.range_succ_eq_map, List.map_cons,
        List.cons.injEq] at h1
      rw [h1.1]
      exact Nat.mod_eq_of_lt hs
  · intro hle
    rw [hinv.1, List.pairwise_map]
    refine List.Pairwise.imp_of_mem ?_ (List.pairwise_lt_range _)
    intro i j hi hj hij
    rw [List.mem_range] at hi hj
    rw [Nat.mod_eq_of_lt (by omega), Nat.mod_eq_of_lt (by omega)]
    omega

/-- Witness of C7: a gateway account with sequence `5` and the default-ripple flag unset
that owns two trust lines with the no-ripple flag set. -/
theorem noRippleResponse_sequences_witness :
    ∃ txs, (noRippleResponse rippled 1 true true (some ⟨10⟩) 300 ⟨7, 99⟩ (sampleRoot 5 0)
        [sampleLine 10 2 0x00100000, sampleLine 20 3 0x00100000]).transactions = some txs ∧
      txs.map Tx.Sequence =
        (List.range txs.length).map (fun i => ((sampleRoot 5 0).sfSequence + i) % 4294967296) ∧
      (∀ tx, txs.head? = some tx → tx.Sequence = (sampleRoot 5 0).sfSequence) ∧
      ((sampleRoot 5 0).sfSequence + txs.length ≤ 4294967296 →
        (txs.map Tx.Sequence).Pairwise (fun x y => x < y)) :=
  noRippleResponse_sequences rippled 1 true (some ⟨10⟩) 300 ⟨7, 99⟩ (sampleRoot 5 0)
    [sampleLine 10 2 0x00100000, sampleLine 20 3 0x00100000] (by decide)

/-- C7 as stated fails: a gateway account whose root has the 32-bit sequence `4294967295`
and the default-ripple flag unset owns one trust line with the no-ripple flag set; with
transactions requested the `Sequence` fields of the two suggested transactions are
`4294967295` and `0`, which is not strictly increasing. -/
theorem doNoRippleCheck_sequence_wraps :
    (doNoRippleCheck rippled
        (sampleRootContext
          [("account", .string "rALICE"), ("role", .string "gateway"),
            ("transactions", .bool true)]
          (sampleRoot 4294967295 0) [sampleLine 10 2 0x00100000])).toOption.map
      (fun r => r.transactions.map (fun txs => txs.map Tx.Sequence)) =
        some (some [4294967295, 0]) ∧
    ¬ [4294967295, 0].Pairwise (fun x y => x < y) := by
  refine ⟨rfl, by decide⟩

/-! ## The destination filter of `doAccountChannels` -/

theorem channelsResponse_channels (P : Protocol) (p : ChannelsParams) (owned : List SLE)
    (hL : p.limit < 4294967296) :
    (channelsResponse P p owned).channels =
      (((owned.filter (fun o => decide (p.marker ≤ o.key))).filter
        (channelMatches p.accountID p.destAccount)).take p.limit).foldl (addChannel P) [] := by
  simp only [channelsResponse]
  rw [traverse_snd, offer_channels P p.accountID p.destAccount _ p.limit hL []]

theorem foldl_addChannel_cons (P : Protocol) (o : SLE) (l : List SLE) :
    (o :: l).foldl (addChannel P) [] = addChannel P [] o ++ l.foldl (addChannel P) [] := by
  rw [List.foldl_cons, foldl_addChannel_append]

theorem filter_foldl_addChannel (P : Protocol) (d : AccountID) (l : List SLE) :
    (l.foldl (addChannel P) []).filter (fun c => c.destination_account == d) =
      (l.filter (fun o => o.sfDestination == d)).foldl (addChannel P) [] := by
  induction l with
  | nil => simp
  | cons o tl ih =>
    rw [foldl_addChannel_cons, List.filter_append, ih]
    by_cases h : o.sfDestination = d
    · rw [List.filter_cons_of_pos (by simpa using h), foldl_addChannel_cons]
      simp [addChannel, h]
    · rw [List.filter_cons_of_neg (by simpa using h)]
      simp [addChannel, h]

theorem channelMatches_some (a d : AccountID) (o : SLE) :
    channelMatches a (some d) o = (channelMatches a none o && (o.sfDestination == d)) := by
  simp only [channelMatches, Option.isNone_some, Bool.false_or, Option.isNone_none,
    Bool.true_or, Bool.and_true]
  congr 1
  by_cases h : o.sfDestination = d
  · simp [h]
  · have h1 : ¬ d = o.sfDestination := fun e => h e.symm
    simp [h, h1]

theorem filter_channelMatches_some (a d : AccountID) (l : List SLE) :
    l.filter (channelMatches a (some d)) =
      (l.filter (channelMatches a none)).filter (fun o => o.sfDestination == d) := by
  rw [List.filter_filter]
  congr 1
  funext o
  rw [channelMatches_some, Bool.and_comm]

/-- C8, as the code has it: for every account, list of owned objects, cursor, limit `L`
and destination `d`, if the account has at most `L` payment channels at or after the
cursor (the unfiltered call does not exhaust its budget), then the `channels` of the call
with destination filter `d` are exactly the channels of the unfiltered call whose
destination is `d`, in the same order; this is a sublist of the unfiltered result, not
necessarily a strict one. -/
theorem channels_destination_filter (P : Protocol) (p : ChannelsParams) (owned : List SLE)
    (d : AccountID) (hL : p.limit < 4294967296)
    (hall : ((owned.filter (fun o => decide (p.marker ≤ o.key))).filter
      (channelMatches p.accountID none)).length ≤ p.limit) :
    (channelsResponse P { p with destAccount := some d } owned).channels =
        (channelsResponse P { p with destAccount := none } owned).channels.filter
          (fun c => c.destination_account == d) ∧
      List.Sublist (channelsResponse P { p with destAccount := some d } owned).channels
        (channelsResponse P { p with destAccount := none } owned).channels := by
  have key : (channelsResponse P { p with destAccount := some d } owned).channels =
      (channelsResponse P { p with destAccount := none } owned).channels.filter
        (fun c => c.destination_account == d) := by
    rw [channelsResponse_channels P { p with destAccount := some d } owned hL,
      channelsResponse_channels P { p with destAccount := none } owned hL]
    simp only []
    rw [filter_foldl_addChannel, filter_channelMatches_some, List.take_of_length_le hall,
      List.take_of_length_le]
    exact le_trans (List.length_filter_le _ _) hall
  exact ⟨key, by rw [key]; exact List.filter_sublist _⟩

/-- Witness of C8: account `1` owns channels to `5`, `6` and `5`; with limit `3` the call
filtered on destination `5` returns the first and the third. -/
theorem channels_destination_filter_witness :
    (channelsResponse rippled ⟨⟨7, 99⟩, 1, some 5, 3, 0⟩
        [sampleChannel 10 5, sampleChannel 20 6, sampleChannel 30 5]).channels =
      (channelsResponse rippled ⟨⟨7, 99⟩, 1, none, 3, 0⟩
        [sampleChannel 10 5, sampleChannel 20 6, sampleChannel 30 5]).channels.filter
          (fun c => c.destination_account == 5) :=
  (channels_destination_filter rippled ⟨⟨7, 99⟩, 1, none, 3, 0⟩
    [sampleChannel 10 5, sampleChannel 20 6, sampleChannel 30 5] 5 (by decide)
    (by decide)).1

/-- C8 as stated fails: account `rALICE` owns a channel to `rXAVIER` (key `10`) and a
channel to `rYVES` (key `20`). With limit `1` the call filtered on `rYVES` returns the
channel `20`, which the unfiltered call with the same limit does not return, so the
filtered result is no subset of the unfiltered one. And when the only channel goes to
`rXAVIER` the call filtered on `rXAVIER` returns the same channels as the unfiltered call,
so the subset is not strict. -/
theorem doAccountChannels_filter_not_subset :
    doAccountChannels rippled
        (sampleContext [("account", .string "rALICE"), ("limit", .int64 1),
            ("destination_account", .string "rYVES")]
          [sampleChannel 10 5, sampleChannel 20 6]) =
      .ok { account := 1, channels := [sampleRecord 20 6], ledger_hash := 99,
            ledger_index := 7, marker := none } ∧
    (doAccountChannels rippled
        (sampleContext [("account", .string "rALICE"), ("limit", .int64 1)]
          [sampleChannel 10 5, sampleChannel 20 6])).toOption.map (fun r => r.channels) =
      some [sampleRecord 10 5] ∧
    sampleRecord 20 6 ∉ [sampleRecord 10 5] ∧
    doAccountChannels rippled
        (sampleContext [("account", .string "rALICE"),
            ("destination_account", .string "rXAVIER")] [sampleChannel 10 5]) =
      doAccountChannels rippled
        (sampleContext [("account", .string "rALICE")] [sampleChannel 10 5]) := by
  refine ⟨rfl, rfl, by decide, rfl⟩

/-! ## The scan of `doNoRippleCheck` as a function of the trust lines that need a fix -/

theorem needsFix_iff (P : Protocol) (a : AccountID) (roleGateway : Bool) (o : SLE) :
    needsFix P a roleGateway o = true ↔
      o.getType = LedgerEntryType.ltRIPPLE_STATE ∧
        (classify (noRippleBit P a o) roleGateway).2 = true := by
  simp [needsFix]

theorem suggestions_length (P : Protocol) (a : AccountID) (fees : Option Fees) (c : Nat)
    (l : List SLE) : (suggestions P a fees c l).length = l.length := by
  induction l generalizing c with
  | nil => rfl
  | cons o tl ih => simp [suggestions, ih]

theorem offer_checkOwnedItem (P : Protocol) (a : AccountID) (roleGateway includeTxs : Bool)
    (fees : Option Fees) (objs : List SLE) (st : NoRippleState)
    (hL : st.limit < 18446744073709551616) :
    (offerUntilStop (checkOwnedItem P a roleGateway includeTxs fees) st objs).2.problems =
        st.problems ++
          (((objs.filter (needsFix P a roleGateway)).take (st.limit + 1)).map
            (findingText P a roleGateway)) ∧
      (offerUntilStop (checkOwnedItem P a roleGateway includeTxs fees) st objs).2.transactions =
        st.transactions ++
          (if includeTxs then
            suggestions P a fees st.accountSeq
              ((objs.filter (needsFix P a roleGateway)).take (st.limit + 1))
          else []) := by
  induction objs generalizing st with
  | nil => simp [offerUntilStop, suggestions]
  | cons o tl ih =>
    obtain ⟨txs, c, L, ps⟩ := st
    simp only at hL
    cases hn : needsFix P a roleGateway o with
    | false =>
      have h : ¬ (o.getType = LedgerEntryType.ltRIPPLE_STATE ∧
          (classify (noRippleBit P a o) roleGateway).2 = true) := by
        rw [← needsFix_iff, hn]
        simp
      simp only [offerUntilStop, checkOwnedItem_nofix P a roleGateway includeTxs fees _ o h]
      have := ih ⟨txs, c, L, ps⟩ hL
      simpa [List.filter_cons, hn] using this
    | true =>
      have h := (needsFix_iff P a roleGateway o).mp hn
      cases L with
      | zero =>
        simp only [offerUntilStop, checkOwnedItem_fix P a roleGateway includeTxs fees _ o h.1 h.2]
        cases includeTxs <;> simp [List.filter_cons, hn, suggestions]
      | succ k =>
        have hk : (k + 1 + 18446744073709551615) % 18446744073709551616 = k := by omega
        simp only [offerUntilStop, checkOwnedItem_fix P a roleGateway includeTxs fees _ o h.1 h.2,
          hk]
        have hne : (k + 1 == 0) = false := by simp
        simp only [hne, Bool.not_false]
        have := ih ⟨txs ++ (if includeTxs then [suggestedTrustSet P a fees c o] else []),
          if includeTxs then (c + 1) % 4294967296 else c, k, ps ++ [findingText P a roleGateway o]⟩
          (by simp only; omega)
        cases includeTxs <;> simp_all [List.filter_cons, suggestions]

theorem offer_checkOwnedItem_stop (P : Protocol) (a : AccountID) (roleGateway includeTxs : Bool)
    (fees : Option Fees) (objs : List SLE) (st : NoRippleState)
    (hL : st.limit < 18446744073709551616) (rest : List SLE) :
    (offerUntilStop (checkOwnedItem P a roleGateway includeTxs fees) st objs).1 = some rest ↔
      ∃ pre o, objs = pre ++ o :: rest ∧ needsFix P a roleGateway o = true ∧
        (pre.filter (needsFix P a roleGateway)).length = st.limit := by
  induction objs generalizing st with
  | nil => simp [offerUntilStop]
  | cons o tl ih =>
    obtain ⟨txs, c, L, ps⟩ := st
    simp only at hL
    cases hn : needsFix P a roleGateway o with
    | false =>
      have h : ¬ (o.getType = LedgerEntryType.ltRIPPLE_STATE ∧
          (classify (noRippleBit P a o) roleGateway).2 = true) := by
        rw [← needsFix_iff, hn]
        simp
      simp only [offerUntilStop, checkOwnedItem_nofix P a roleGateway includeTxs fees _ o h]
      rw [ih ⟨txs, c, L, ps⟩ hL]
      constructor
      · rintro ⟨pre, o1, h1, h2, h3⟩
        exact ⟨o :: pre, o1, by simp [h1], h2, by simpa [List.filter_cons, hn] using h3⟩
      · rintro ⟨pre, o1, h1, h2, h3⟩
        cases pre with
        | nil =>
          simp only [List.nil_append, List.cons.injEq] at h1
          rw [← h1.1, hn] at h2
          exact absurd h2 (by simp)
        | cons p pre1 =>
          simp only [List.cons_append, List.cons.injEq] at h1
          refine ⟨pre1, o1, h1.2, h2, ?_⟩
          rw [← h1.1] at h3
          simpa [List.filter_cons, hn] using h3
    | true =>
      have h := (needsFix_iff P a roleGateway o).mp hn
      cases L with
      | zero =>
        simp only [offerUntilStop, checkOwnedItem_fix P a roleGateway includeTxs fees _ o h.1 h.2]
        have he : ((0 : Nat) == 0) = true := rfl
        simp only [he, Bool.not_true]
        constructor
        · intro h0
          simp only [Option.some.injEq] at h0
          exact ⟨[], o, by simp [h0], hn, by simp⟩
        · rintro ⟨pre, o1, h1, _, h3⟩
          cases pre with
          | nil =>
            simp only [List.nil_append, List.cons.injEq] at h1
            simp [h1.2]
          | cons p pre1 =>
            simp only [List.cons_append, List.cons.injEq] at h1
            rw [← h1.1] at h3
            simp [List.filter_cons, hn] at h3
      | succ k =>
        have hk : (k + 1 + 18446744073709551615) % 18446744073709551616 = k := by omega
        simp only [offerUntilStop, checkOwnedItem_fix P a roleGateway includeTxs fees _ o h.1 h.2,
          hk]
        have hne : (k + 1 == 0) = false := by simp
        simp only [hne, Bool.not_false]
        rw [ih _ (by simp only; omega)]
        constructor
        · rintro ⟨pre, o1, h1, h2, h3⟩
          exact ⟨o :: pre, o1, by simp [h1], h2, by simpa [List.filter_cons, hn] using h3⟩
        · rintro ⟨pre, o1, h1, h2, h3⟩
          cases pre with
          | nil => simp at h3
          | cons p pre1 =>
            simp only [List.cons_append, List.cons.injEq] at h1
            refine ⟨pre1, o1, h1.2, h2, ?_⟩
            rw [← h1.1] at h3
            simpa [List.filter_cons, hn] using h3

theorem filter_zero_le_key (owned : List SLE) :
    owned.filter (fun o => decide (0 ≤ o.key)) = owned := by
  simp

theorem preCheck_limit (P : Protocol) (a : AccountID) (roleGateway includeTxs : Bool)
    (fees : Option Fees) (limit : Nat) (sle : SLE) :
    (preCheck P a roleGateway includeTxs fees limit sle).limit = limit := by
  unfold preCheck
  simp only []
  split
  · rfl
  · split
    · split <;> rfl
    · rfl

theorem preCheck_problems_flag (P : Protocol) (a : AccountID) (roleGateway includeTxs : Bool)
    (fees : Option Fees) (limit : Nat) (sle : SLE) :
    (preCheck P a roleGateway includeTxs fees limit sle).problems =
      (preCheck P a roleGateway true fees limit sle).problems := by
  unfold preCheck
  simp only []
  split
  · rfl
  · split
    · cases includeTxs <;> rfl
    · rfl

theorem scanPhase_eq (P : Protocol) (a : AccountID) (roleGateway includeTxs : Bool)
    (fees : Option Fees) (st : NoRippleState) (owned : List SLE)
    (hL : st.limit < 18446744073709551616) :
    (scanPhase P a roleGateway includeTxs fees st owned).problems =
        st.problems ++
          (((owned.filter (needsFix P a roleGateway)).take (st.limit + 1)).map
            (findingText P a roleGateway)) ∧
      (scanPhase P a roleGateway includeTxs fees st owned).transactions =
        st.transactions ++
          (if includeTxs then
            suggestions P a fees st.accountSeq
              ((owned.filter (needsFix P a roleGateway)).take (st.limit + 1))
          else []) := by
  unfold scanPhase
  rw [traverse_snd, filter_zero_le_key]
  exact offer_checkOwnedItem P a roleGateway includeTxs fees owned st hL

/-! ## Number of findings of the scan -/

/-- C16: for every limit `L` of the `size_t` budget (zero included) and every list of
owned objects with `k` trust lines that need a fix, the scan started after the pre-check
appends to `problems` exactly the findings of the first `min (L + 1) k` of them, in scan
order; the callback returns `false` exactly on the `(L+1)`-th trust line that needs a fix
(the one preceded by exactly `L` such lines), and on the call that returns `false` the
finding, and the suggested transaction when requested, have been recorded. -/
theorem scanPhase_findings_count (P : Protocol) (a : AccountID) (roleGateway includeTxs : Bool)
    (fees : Option Fees) (L : Nat) (sle : SLE) (owned : List SLE)
    (hL : L < 18446744073709551616) :
    (scanPhase P a roleGateway includeTxs fees
        (preCheck P a roleGateway includeTxs fees L sle) owned).problems =
      (preCheck P a roleGateway includeTxs fees L sle).problems ++
        (((owned.filter (needsFix P a roleGateway)).take (L + 1)).map
          (findingText P a roleGateway)) ∧
    (((owned.filter (needsFix P a roleGateway)).take (L + 1)).map
        (findingText P a roleGateway)).length =
      min (L + 1) (owned.filter (needsFix P a roleGateway)).length ∧
    (∀ rest, (offerUntilStop (checkOwnedItem P a roleGateway includeTxs fees)
        (preCheck P a roleGateway includeTxs fees L sle) owned).1 = some rest ↔
      ∃ pre o, owned = pre ++ o :: rest ∧ needsFix P a roleGateway o = true ∧
        (pre.filter (needsFix P a roleGateway)).length = L) ∧
    (∀ st o, (checkOwnedItem P a roleGateway includeTxs fees st o).1 = false →
      needsFix P a roleGateway o = true ∧ st.limit = 0 ∧
      (checkOwnedItem P a roleGateway includeTxs fees st o).2.problems =
        st.problems ++ [findingText P a roleGateway o] ∧
      (includeTxs = true →
        (checkOwnedItem P a roleGateway includeTxs fees st o).2.transactions =
          st.transactions ++ [suggestedTrustSet P a fees st.accountSeq o])) ∧
    (∀ o, needsFix P a roleGateway o = true ↔
      o.getType = LedgerEntryType.ltRIPPLE_STATE ∧
        (classify (noRippleBit P a o) roleGateway).2 = true) := by
  have hlim := preCheck_limit P a roleGateway includeTxs fees L sle
  have h1 := (scanPhase_eq P a roleGateway includeTxs fees
    (preCheck P a roleGateway includeTxs fees L sle) owned (by rw [hlim]; exact hL)).1
  have h2 := offer_checkOwnedItem_stop P a roleGateway includeTxs fees owned
    (preCheck P a roleGateway includeTxs fees L sle) (by rw [hlim]; exact hL)
  rw [hlim] at h1 h2
  refine ⟨h1, by simp, h2, ?_, fun o => needsFix_iff P a roleGateway o⟩
  intro st o hfalse
  by_cases h : o.getType = LedgerEntryType.ltRIPPLE_STATE ∧
      (classify (noRippleBit P a o) roleGateway).2 = true
  · rw [checkOwnedItem_fix P a roleGateway includeTxs fees st o h.1 h.2] at hfalse ⊢
    refine ⟨(needsFix_iff P a roleGateway o).mpr h, by simpa using hfalse, rfl, ?_⟩
    intro hinc
    simp [hinc]
  · rw [checkOwnedItem_nofix P a roleGateway includeTxs fees st o h] at hfalse
    simp at hfalse

/-- Witness of C16: a gateway account with the default-ripple flag set owns three trust
lines with the no-ripple flag set; with limit `1` the scan records two findings. -/
theorem scanPhase_findings_count_witness :
    (scanPhase rippled 1 true false none
        (preCheck rippled 1 true false none 1 (sampleRoot 5 0x00800000))
        [sampleLine 10 2 0x00100000, sampleLine 20 3 0x00100000,
          sampleLine 30 4 0x00100000]).problems =
      (preCheck rippled 1 true false none 1 (sampleRoot 5 0x00800000)).problems ++
        ((([sampleLine 10 2 0x00100000, sampleLine 20 3 0x00100000,
          sampleLine 30 4 0x00100000].filter (needsFix rippled 1 true)).take (1 + 1)).map
          (findingText rippled 1 true)) :=
  (scanPhase_findings_count rippled 1 true false none 1 (sampleRoot 5 0x00800000)
    [sampleLine 10 2 0x00100000, sampleLine 20 3 0x00100000, sampleLine 30 4 0x00100000]
    (by decide)).1

/-! ## Order and correspondence of findings and suggestions -/

theorem preCheck_lengths (P : Protocol) (a : AccountID) (roleGateway : Bool)
    (fees : Option Fees) (limit : Nat) (sle : SLE) :
    (preCheck P a roleGateway true fees limit sle).transactions.length =
      (preCheck P a roleGateway true fees limit sle).problems.length -
        (if (!roleGateway && (sle.sfFlags &&& P.lsfDefaultRipple != 0)) = true then 1 else 0) ∧
    (if (!roleGateway && (sle.sfFlags &&& P.lsfDefaultRipple != 0)) = true then 1 else 0) ≤
      (preCheck P a roleGateway true fees limit sle).problems.length := by
  cases roleGateway <;> cases hd : (sle.sfFlags &&& P.lsfDefaultRipple != 0) <;>
    simp [preCheck, hd]

/-- C11: with a `size_t` limit `L`, and `l` the first `L + 1` trust lines in scan order
that need a fix: `problems` is the pre-check findings followed by the findings of `l` in
scan order, whether or not transactions are requested; with transactions requested
`transactions` is the pre-check transactions followed by one suggested `TrustSet` for each
member of `l` in the same order, and its length is the length of `problems` minus one when
role is user and the default-ripple flag is set, minus zero otherwise; with transactions
not requested the response has no `transactions` and the same `problems`. -/
theorem noRippleResponse_order (P : Protocol) (a : AccountID) (roleGateway : Bool)
    (fees : Option Fees) (L : Nat) (lgrInfo : LedgerInfo) (sle : SLE) (owned : List SLE)
    (hL : L < 18446744073709551616) :
    (∀ includeTxs,
      (noRippleResponse P a roleGateway includeTxs fees L lgrInfo sle owned).problems =
        (preCheck P a roleGateway includeTxs fees L sle).problems ++
          (((owned.filter (needsFix P a roleGateway)).take (L + 1)).map
            (findingText P a roleGateway))) ∧
    (noRippleResponse P a roleGateway true fees L lgrInfo sle owned).transactions =
      some ((preCheck P a roleGateway true fees L sle).transactions ++
        suggestions P a fees (preCheck P a roleGateway true fees L sle).accountSeq
          ((owned.filter (needsFix P a roleGateway)).take (L + 1))) ∧
    (∃ txs, (noRippleResponse P a roleGateway true fees L lgrInfo sle owned).transactions =
        some txs ∧
      txs.length =
        (noRippleResponse P a roleGateway true fees L lgrInfo sle owned).problems.length -
          (if (!roleGateway && (sle.sfFlags &&& P.lsfDefaultRipple != 0)) = true
            then 1 else 0)) ∧
    (noRippleResponse P a roleGateway false fees L lgrInfo sle owned).transactions = none ∧
    (noRippleResponse P a roleGateway false fees L lgrInfo sle owned).problems =
      (noRippleResponse P a roleGateway true fees L lgrInfo sle owned).problems := by
  have hp : ∀ includeTxs,
      (noRippleResponse P a roleGateway includeTxs fees L lgrInfo sle owned).problems =
        (preCheck P a roleGateway includeTxs fees L sle).problems ++
          (((owned.filter (needsFix P a roleGateway)).take (L + 1)).map
            (findingText P a roleGateway)) := by
    intro includeTxs
    have hlim := preCheck_limit P a roleGateway includeTxs fees L sle
    have h1 := (scanPhase_eq P a roleGateway includeTxs fees
      (preCheck P a roleGateway includeTxs fees L sle) owned (by rw [hlim]; exact hL)).1
    rw [hlim] at h1
    simp only [noRippleResponse, h1]
  have ht : (noRippleResponse P a roleGateway true fees L lgrInfo sle owned).transactions =
      some ((preCheck P a roleGateway true fees L sle).transactions ++
        suggestions P a fees (preCheck P a roleGateway true fees L sle).accountSeq
          ((owned.filter (needsFix P a roleGateway)).take (L + 1))) := by
    have hlim := preCheck_limit P a roleGateway true fees L sle
    have h2 := (scanPhase_eq P a roleGateway true fees
      (preCheck P a roleGateway true fees L sle) owned (by rw [hlim]; exact hL)).2
    rw [hlim] at h2
    simp only [noRippleResponse, h2, if_true]
  refine ⟨hp, ht, ⟨_, ht, ?_⟩, by simp [noRippleResponse], ?_⟩
  · have hlen := preCheck_lengths P a roleGateway fees L sle
    rw [hp true, List.length_append, List.length_append, suggestions_length, List.length_map,
      hlen.1]
    have h2 := hlen.2
    omega
  · rw [hp false, hp true, preCheck_problems_flag P a roleGateway false fees L sle]

/-- Witness of C11: a user account with the default-ripple flag set that owns a trust line
without the no-ripple flag: two findings and, with transactions requested, one suggested
transaction. -/
theorem noRippleResponse_order_witness :
    (noRippleResponse rippled 1 false false (some ⟨10⟩) 300 ⟨7, 99⟩ (sampleRoot 5 0x00800000)
        [sampleLine 10 2 0]).problems =
      (noRippleResponse rippled 1 false true (some ⟨10⟩) 300 ⟨7, 99⟩ (sampleRoot 5 0x00800000)
        [sampleLine 10 2 0]).problems :=
  (noRippleResponse_order rippled 1 false (some ⟨10⟩) 300 ⟨7, 99⟩ (sampleRoot 5 0x00800000)
    [sampleLine 10 2 0] (by decide)).2.2.2.2

/-! ## Accounts without trust lines -/

theorem offer_fixed {σ α : Type} (cb : σ → α → Bool × σ) (s : σ) (l : List α)
    (h : ∀ o ∈ l, cb s o = (true, s)) : offerUntilStop cb s l = (none, s) := by
  induction l with
  | nil => rfl
  | cons o tl ih =>
    unfold offerUntilStop
    rw [h o (List.mem_cons_self o tl)]
    exact ih (fun x hx => h x (List.mem_cons_of_mem o hx))

/-- C12: for every account whose owned objects include no trust line, and every role,
limit and transactions flag, the scan leaves the state of the pre-check unchanged, so
`problems` is exactly what the pre-check emitted, which is at most one entry; for a gateway
account whose default-ripple flag is unset it is exactly the one pre-check finding. -/
theorem noRippleResponse_no_trust_lines (P : Protocol) (a : AccountID)
    (roleGateway includeTxs : Bool) (fees : Option Fees) (limit : Nat) (lgrInfo : LedgerInfo)
    (sle : SLE) (owned : List SLE)
    (hno : ∀ o ∈ owned, o.getType ≠ LedgerEntryType.ltRIPPLE_STATE) :
    scanPhase P a roleGateway includeTxs fees
        (preCheck P a roleGateway includeTxs fees limit sle) owned =
      preCheck P a roleGateway includeTxs fees limit sle ∧
    (noRippleResponse P a roleGateway includeTxs fees limit lgrInfo sle owned).problems =
      (preCheck P a roleGateway includeTxs fees limit sle).problems ∧
    (noRippleResponse P a roleGateway includeTxs fees limit lgrInfo sle owned).problems.length
      ≤ 1 ∧
    (roleGateway = true → (sle.sfFlags &&& P.lsfDefaultRipple != 0) = false →
      (noRippleResponse P a roleGateway includeTxs fees limit lgrInfo sle owned).problems =
        ["You should immediately set your default ripple flag"]) := by
  have hscan : scanPhase P a roleGateway includeTxs fees
      (preCheck P a roleGateway includeTxs fees limit sle) owned =
        preCheck P a roleGateway includeTxs fees limit sle := by
    unfold scanPhase
    rw [traverse_snd, filter_zero_le_key, offer_fixed]
    intro o ho
    exact checkOwnedItem_nofix P a roleGateway includeTxs fees _ o (fun h => hno o ho h.1)
  have hp : (noRippleResponse P a roleGateway includeTxs fees limit lgrInfo sle owned).problems =
      (preCheck P a roleGateway includeTxs fees limit sle).problems := by
    simp only [noRippleResponse, hscan]
  refine ⟨hscan, hp, ?_, ?_⟩
  · rw [hp]
    cases roleGateway <;> cases includeTxs <;>
      cases hd : (sle.sfFlags &&& P.lsfDefaultRipple != 0) <;> simp [preCheck, hd]
  · intro hg hd
    rw [hp]
    subst hg
    cases includeTxs <;> simp [preCheck, hd]

/-- Witness of C12: a gateway account without the default-ripple flag that owns a payment
channel and an offer has exactly the pre-check finding. -/
theorem noRippleResponse_no_trust_lines_witness :
    (noRippleResponse rippled 1 true false none 300 ⟨7, 99⟩ (sampleRoot 5 0)
        [sampleChannel 10 5, sampleOffer 20]).problems =
      ["You should immediately set your default ripple flag"] :=
  (noRippleResponse_no_trust_lines rippled 1 true false none 300 ⟨7, 99⟩ (sampleRoot 5 0)
    [sampleChannel 10 5, sampleOffer 20] (by decide)).2.2.2 rfl (by decide)

/-! ## The suggested `TrustSet` transaction -/

/-- C15, as the code has it: for every trust line that needs a fix, with transactions
requested, the callback appends one `TrustSet` transaction whose `LimitAmount` carries the
value and currency of the limit field of the side the account occupies (low limit when the
account is the low side, high limit otherwise), with the peer (the issuer of the limit of
the other side) as issuer, and whose `Sequence` is the current value of the running
counter, which is then advanced by one modulo `2^32`. -/
theorem checkOwnedItem_limitAmount (P : Protocol) (a : AccountID) (roleGateway : Bool)
    (fees : Option Fees) (st : NoRippleState) (o : SLE)
    (hfix : needsFix P a roleGateway o = true) :
    ∃ tx : Tx,
      (checkOwnedItem P a roleGateway true fees st o).2.transactions = st.transactions ++ [tx] ∧
      tx.TransactionType = some "TrustSet" ∧
      tx.LimitAmount = some
        { value := (if isLow a o then o.sfLowLimit else o.sfHighLimit).value,
          currency := (if isLow a o then o.sfLowLimit else o.sfHighLimit).currency,
          issuer := (if isLow a o then o.sfHighLimit else o.sfLowLimit).issuer } ∧
      tx.Sequence = st.accountSeq ∧
      (checkOwnedItem P a roleGateway true fees st o).2.accountSeq =
        (st.accountSeq + 1) % 4294967296 := by
  have h := (needsFix_iff P a roleGateway o).mp hfix
  rw [checkOwnedItem_fix P a roleGateway true fees st o h.1 h.2]
  exact ⟨suggestedTrustSet P a fees st.accountSeq o, by simp, rfl, rfl, rfl, by simp⟩

/-- Witness of C15: the trust line of account `1` (low side, limit `100`) with peer `2`
(high side, limit `50`) and the low no-ripple flag set, offered with role gateway. -/
theorem checkOwnedItem_limitAmount_witness :
    ∃ tx : Tx,
      (checkOwnedItem rippled 1 true true (some ⟨10⟩) ⟨[], 5, 300, []⟩
        (sampleLine 10 2 0x00100000)).2.transactions = [] ++ [tx] ∧
      tx.TransactionType = some "TrustSet" ∧
      tx.LimitAmount = some
        { value := (if isLow 1 (sampleLine 10 2 0x00100000)
            then (sampleLine 10 2 0x00100000).sfLowLimit
            else (sampleLine 10 2 0x00100000).sfHighLimit).value,
          currency := (if isLow 1 (sampleLine 10 2 0x00100000)
            then (sampleLine 10 2 0x00100000).sfLowLimit
            else (sampleLine 10 2 0x00100000).sfHighLimit).currency,
          issuer := (if isLow 1 (sampleLine 10 2 0x00100000)
            then (sampleLine 10 2 0x00100000).sfHighLimit
            else (sampleLine 10 2 0x00100000).sfLowLimit).issuer } ∧
      tx.Sequence = 5 ∧
      (checkOwnedItem rippled 1 true true (some ⟨10⟩) ⟨[], 5, 300, []⟩
        (sampleLine 10 2 0x00100000)).2.accountSeq = (5 + 1) % 4294967296 :=
  checkOwnedItem_limitAmount rippled 1 true (some ⟨10⟩) ⟨[], 5, 300, []⟩
    (sampleLine 10 2 0x00100000) (by decide)

/-- C15 as stated fails: account `rALICE` is the low side of a trust line with low limit
`100` and high limit `50` of peer `2`; the suggested `TrustSet` has the limit amount
`100` of the low side, the side the account occupies, with issuer `2`, and not the high
limit `50` of the peer. -/
theorem doNoRippleCheck_limitAmount_own_side :
    isLow 1 (sampleLine 10 2 0x00100000) = true ∧
    (sampleLine 10 2 0x00100000).sfHighLimit = ⟨50, 840, 2⟩ ∧
    (doNoRippleCheck rippled
        (sampleRootContext
          [("account", .string "rALICE"), ("role", .string "gateway"),
            ("transactions", .bool true)]
          (sampleRoot 5 0x00800000) [sampleLine 10 2 0x00100000])).toOption.map
      (fun r => r.transactions.map (fun txs => txs.map Tx.LimitAmount)) =
        some (some [some ⟨100, 840, 2⟩]) ∧
    (⟨100, 840, 2⟩ : STAmount) ≠ ⟨50, 840, 2⟩ := by
  refine ⟨rfl, rfl, rfl, by decide⟩

/-! ## The flag of a suggested `TrustSet` follows the role -/

theorem noRippleResponse_eq (P : Protocol) (a : AccountID) (roleGateway : Bool)
    (fees : Option Fees) (L : Nat) (lgrInfo : LedgerInfo) (sle : SLE) (owned : List SLE)
    (hL : L < 18446744073709551616) :
    (noRippleResponse P a roleGateway true fees L lgrInfo sle owned).problems =
        (preCheck P a roleGateway true fees L sle).problems ++
          (((owned.filter (needsFix P a roleGateway)).take (L + 1)).map
            (findingText P a roleGateway)) ∧
      (noRippleResponse P a roleGateway true fees L lgrInfo sle owned).transactions =
        some ((preCheck P a roleGateway true fees L sle).transactions ++
          suggestions P a fees (preCheck P a roleGateway true fees L sle).accountSeq
            ((owned.filter (needsFix P a roleGateway)).take (L + 1))) := by
  have hlim := preCheck_limit P a roleGateway true fees L sle
  have h := scanPhase_eq P a roleGateway true fees
    (preCheck P a roleGateway true fees L sle) owned (by rw [hlim]; exact hL)
  rw [hlim] at h
  exact ⟨by simp only [noRippleResponse, h.1], by simp only [noRippleResponse, h.2, if_true]⟩

theorem mem_suggestions (P : Protocol) (a : AccountID) (fees : Option Fees) (c : Nat)
    (l : List SLE) (tx : Tx) (h : tx ∈ suggestions P a fees c l) :
    ∃ o ∈ l, ∃ c1, tx = suggestedTrustSet P a fees c1 o := by
  induction l generalizing c with
  | nil => simp [suggestions] at h
  | cons o tl ih =>
    simp only [suggestions, List.mem_cons] at h
    rcases h with h | h
    · exact ⟨o, List.mem_cons_self o tl, c, h⟩
    · obtain ⟨o1, ho1, c1, h1⟩ := ih _ h
      exact ⟨o1, List.mem_cons_of_mem o ho1, c1, h1⟩

theorem preCheck_transactions_type (P : Protocol) (a : AccountID) (roleGateway : Bool)
    (fees : Option Fees) (limit : Nat) (sle : SLE) (tx : Tx)
    (h : tx ∈ (preCheck P a roleGateway true fees limit sle).transactions) :
    tx.TransactionType = some "AccountSet" := by
  cases roleGateway <;> cases hd : (sle.sfFlags &&& P.lsfDefaultRipple != 0) <;>
    simp [preCheck, hd] at h
  rw [h]

theorem needsFix_bit (P : Protocol) (a : AccountID) (roleGateway : Bool) (o : SLE)
    (h : needsFix P a roleGateway o = true) : noRippleBit P a o = roleGateway := by
  have h1 := ((needsFix_iff P a roleGateway o).mp h).2
  cases roleGateway <;> cases hb : noRippleBit P a o <;> simp [classify, hb] at h1 ⊢

theorem findingText_start (P : Protocol) (a : AccountID) (roleGateway : Bool) (o : SLE)
    (h : needsFix P a roleGateway o = true) :
    ∃ rest, findingText P a roleGateway o =
      (if roleGateway then "You should clear the no ripple flag"
        else "You should probably set the no ripple flag") ++ rest := by
  have hb := needsFix_bit P a roleGateway o h
  refine ⟨" on your " ++
    P.currencyToString (if isLow a o then o.sfHighLimit else o.sfLowLimit).currency ++
    " line to " ++
    P.accountToString (if isLow a o then o.sfHighLimit else o.sfLowLimit).issuer, ?_⟩
  unfold findingText
  rw [hb]
  cases roleGateway
  · have h1 : (classify false false).1 =
        "You should probably set the no ripple flag" ++ " on your " := by decide
    rw [h1]
    simp only [String.append_assoc, Bool.false_eq_true, if_false]
  · have h1 : (classify true true).1 =
        "You should clear the no ripple flag" ++ " on your " := by decide
    rw [h1]
    simp only [String.append_assoc, if_true]

/-- C17: with transactions requested and a `size_t` limit, every suggested transaction of
type `TrustSet` in the response has `Flags = tfClearNoRipple` when role is gateway and
`Flags = tfSetNoRipple` when role is user; the scan findings are the findings of a list
`l` of trust lines and the suggested `TrustSet` transactions are those of the same list in
the same order; the finding text of every member of `l` begins with "You should clear the
no ripple flag" when role is gateway and with "You should probably set the no ripple
flag" when role is user, and the transaction suggested for it carries the flag of the
same role, so a clear finding is never paired with the set flag nor a set finding with
the clear flag. -/
theorem trustSet_flags_follow_role (P : Protocol) (a : AccountID) (roleGateway : Bool)
    (fees : Option Fees) (L : Nat) (lgrInfo : LedgerInfo) (sle : SLE) (owned : List SLE)
    (hL : L < 18446744073709551616) :
    ∃ txs l,
      (noRippleResponse P a roleGateway true fees L lgrInfo sle owned).transactions = some txs ∧
      txs = (preCheck P a roleGateway true fees L sle).transactions ++
        suggestions P a fees (preCheck P a roleGateway true fees L sle).accountSeq l ∧
      (noRippleResponse P a roleGateway true fees L lgrInfo sle owned).problems =
        (preCheck P a roleGateway true fees L sle).problems ++
          l.map (findingText P a roleGateway) ∧
      (∀ tx ∈ txs, tx.TransactionType = some "TrustSet" →
        tx.Flags = some (if roleGateway then P.tfClearNoRipple else P.tfSetNoRipple)) ∧
      (∀ o ∈ l, ∃ rest, findingText P a roleGateway o =
        (if roleGateway then "You should clear the no ripple flag"
          else "You should probably set the no ripple flag") ++ rest) ∧
      (∀ o ∈ l, ∀ c, (suggestedTrustSet P a fees c o).TransactionType = some "TrustSet" ∧
        (suggestedTrustSet P a fees c o).Flags =
          some (if roleGateway then P.tfClearNoRipple else P.tfSetNoRipple)) := by
  have h := noRippleResponse_eq P a roleGateway fees L lgrInfo sle owned hL
  have hmem : ∀ o ∈ (owned.filter (needsFix P a roleGateway)).take (L + 1),
      needsFix P a roleGateway o = true := fun o ho =>
    (List.mem_filter.mp (List.mem_of_mem_take ho)).2
  have hflag : ∀ o ∈ (owned.filter (needsFix P a roleGateway)).take (L + 1), ∀ c,
      (suggestedTrustSet P a fees c o).TransactionType = some "TrustSet" ∧
        (suggestedTrustSet P a fees c o).Flags =
          some (if roleGateway then P.tfClearNoRipple else P.tfSetNoRipple) := by
    intro o ho c
    have hb := needsFix_bit P a roleGateway o (hmem o ho)
    refine ⟨rfl, ?_⟩
    simp only [suggestedTrustSet, hb]
  refine ⟨_, (owned.filter (needsFix P a roleGateway)).take (L + 1), h.2, rfl, h.1, ?_,
    fun o ho => findingText_start P a roleGateway o (hmem o ho), hflag⟩
  intro tx htx htype
  rcases List.mem_append.mp htx with hpre | hsug
  · have h1 := preCheck_transactions_type P a roleGateway fees L sle tx hpre
    rw [h1] at htype
    exact absurd htype (by decide)
  · obtain ⟨o, ho, c1, h1⟩ := mem_suggestions P a fees _ _ tx hsug
    rw [h1]
    exact (hflag o ho c1).2

/-- Witness of C17: a user account that owns a trust line without the no-ripple flag. -/
theorem trustSet_flags_follow_role_witness :
    ∃ txs l,
      (noRippleResponse rippled 1 false true (some ⟨10⟩) 300 ⟨7, 99⟩ (sampleRoot 5 0)
        [sampleLine 10 2 0]).transactions = some txs ∧
      txs = (preCheck rippled 1 false true (some ⟨10⟩) 300 (sampleRoot 5 0)).transactions ++
        suggestions rippled 1 (some ⟨10⟩)
          (preCheck rippled 1 false true (some ⟨10⟩) 300 (sampleRoot 5 0)).accountSeq l ∧
      (noRippleResponse rippled 1 false true (some ⟨10⟩) 300 ⟨7, 99⟩ (sampleRoot 5 0)
        [sampleLine 10 2 0]).problems =
        (preCheck rippled 1 false true (some ⟨10⟩) 300 (sampleRoot 5 0)).problems ++
          l.map (findingText rippled 1 false) ∧
      (∀ tx ∈ txs, tx.TransactionType = some "TrustSet" →
        tx.Flags = some (if false then rippled.tfClearNoRipple else rippled.tfSetNoRipple)) ∧
      (∀ o ∈ l, ∃ rest, findingText rippled 1 false o =
        (if false then "You should clear the no ripple flag"
          else "You should probably set the no ripple flag") ++ rest) ∧
      (∀ o ∈ l, ∀ c,
        (suggestedTrustSet rippled 1 (some ⟨10⟩) c o).TransactionType = some "TrustSet" ∧
        (suggestedTrustSet rippled 1 (some ⟨10⟩) c o).Flags =
          some (if false then rippled.tfClearNoRipple else rippled.tfSetNoRipple)) :=
  trustSet_flags_follow_role rippled 1 false (some ⟨10⟩) 300 ⟨7, 99⟩ (sampleRoot 5 0)
    [sampleLine 10 2 0] (by decide)

/-! ## Input validation of `doAccountChannels` -/

theorem channelsParams_error_iff (ctx : Context) (lgrInfo : LedgerInfo)
    (hlgr : ctx.ledgerInfoFromRequest = .ok lgrInfo) (st : Status) :
    channelsParams ctx = .error st ↔
      st.code = Error.rpcINVALID_PARAMS ∧ firstError ctx = some st.message := by
  obtain ⟨code, msg⟩ := st
  have hs : ∀ (m : String), ((⟨Error.rpcINVALID_PARAMS, m⟩ : Status) = ⟨code, msg⟩) ↔
      (code = Error.rpcINVALID_PARAMS ∧ m = msg) := by
    intro m
    constructor
    · intro h
      injection h with h1 h2
      exact ⟨h1.symm, h2⟩
    · rintro ⟨h1, h2⟩
      rw [h1, h2]
  unfold channelsParams firstError accountError destinationError limitError markerError
  rw [hlgr]
  simp only []
  rcases ha : ctx.params.lookup "account" with _ | v
  · simp [hs]
  · cases v <;> try (simp [hs]; done)
    rename_i account
    rcases hp : ctx.accountFromStringStrict account with _ | accountID
    · simp [hs, hp]
    · simp only [hp, Option.isNone_some, Bool.false_eq_true, if_false]
      have hrest : ∀ destAccount : Option AccountID,
          ((match
              (match List.lookup "limit" ctx.params with
                | none => Except.ok 200
                | some (JsonValue.int64 n) =>
                  if toUInt32 n ≤ 0 then
                    Except.error
                      { code := Error.rpcINVALID_PARAMS, message := "limitNotPositive" }
                  else Except.ok (toUInt32 n)
                | some _ =>
                  Except.error { code := Error.rpcINVALID_PARAMS, message := "limitNotInt" } :
                Except Status Nat) with
            | Except.error status => Except.error status
            | Except.ok limit =>
              match List.lookup "marker" ctx.params with
              | none =>
                Except.ok
                  { lgrInfo := lgrInfo, accountID := accountID, destAccount := destAccount,
                    limit := limit, marker := 0 }
              | some (JsonValue.string m) =>
                match ctx.parseHex m with
                | none =>
                  Except.error { code := Error.rpcINVALID_PARAMS, message := "malformedCursor" }
                | some marker =>
                  Except.ok
                    { lgrInfo := lgrInfo, accountID := accountID, destAccount := destAccount,
                      limit := limit, marker := marker }
              | some _ =>
                Except.error { code := Error.rpcINVALID_PARAMS, message := "markerNotString" }) =
            (Except.error { code := code, message := msg } : Except Status ChannelsParams)) ↔
          code = Error.rpcINVALID_PARAMS ∧
            (match
                (match List.lookup "limit" ctx.params with
                  | none => none
                  | some (JsonValue.int64 n) =>
                    if toUInt32 n ≤ 0 then some "limitNotPositive" else none
                  | some _ => some "limitNotInt" : Option String) with
              | some e => some e
              | none =>
                match List.lookup "marker" ctx.params with
                | none => none
                | some (JsonValue.string m) =>
                  if (ctx.parseHex m).isNone = true then some "malformedCursor" else none
                | some _ => some "markerNotString") = some msg := by
        intro destAccount
        have hmark : ∀ limit : Nat,
            ((match List.lookup "marker" ctx.params with
              | none =>
                Except.ok
                  { lgrInfo := lgrInfo, accountID := accountID, destAccount := destAccount,
                    limit := limit, marker := 0 }
              | some (JsonValue.string m) =>
                match ctx.parseHex m with
                | none =>
                  Except.error { code := Error.rpcINVALID_PARAMS, message := "malformedCursor" }
                | some marker =>
                  Except.ok
                    { lgrInfo := lgrInfo, accountID := accountID, destAccount := destAccount,
                      limit := limit, marker := marker }
              | some _ =>
                Except.error { code := Error.rpcINVALID_PARAMS, message := "markerNotString" }) =
              (Except.error { code := code, message := msg } : Except Status ChannelsParams)) ↔
            code = Error.rpcINVALID_PARAMS ∧
              (match List.lookup "marker" ctx.params with
                | none => none
                | some (JsonValue.string m) =>
                  if (ctx.parseHex m).isNone = true then some "malformedCursor" else none
                | some _ => some "markerNotString") = some msg := by
          intro limit
          rcases hm : ctx.params.lookup "marker" with _ | v
          · simp
          · cases v <;> try (simp [hs]; done)
            rename_i m
            rcases hx : ctx.parseHex m with _ | mk <;> simp [hs, hx]
        rcases hl : ctx.params.lookup "limit" with _ | v
        · exact hmark 200
        · cases v <;> try (simp [hs]; done)
          rename_i n
          by_cases hn : toUInt32 n ≤ 0
          · simp [hs, hn]
          · simp only [hn, if_false]
            exact hmark (toUInt32 n)
      rcases hd : ctx.params.lookup "destination_account" with _ | v
      · exact hrest none
      · cases v <;> try (simp [hs]; done)
        rename_i d
        rcases hq : ctx.accountFromStringStrict d with _ | destAccount
        · simp [hs, hq]
        · simp only [hq, Option.isNone_some, Bool.false_eq_true, if_false]
          exact hrest (some destAccount)

theorem toUInt32_pos (n : Int) (h0 : 0 < n) (h1 : n < 4294967296) : 0 < toUInt32 n := by
  unfold toUInt32
  rw [Int.emod_eq_of_lt (le_of_lt h0) h1]
  omega

/-- Validation of `doAccountChannels` when the limit passes the handler's check: with the
ledger selector resolved and `limit` absent or an integer whose 32-bit value is positive
(every integer from `1` to `4294967295` is one), `doAccountChannels` returns an error status if and only if the check of `account`, of `destination_account`
or of `marker` fails (account missing, not a string or not parseable; destination present
and not a string or not parseable; marker present and not a string or not parseable hex);
every error status has the code InvalidParams and the message of the first failing check
in the order account, destination_account, limit, marker; and an error status does not
depend on the owner directory, which is only read by the scan after validation. -/
theorem doAccountChannels_validation (P : Protocol) (ctx : Context) (lgrInfo : LedgerInfo)
    (hlgr : ctx.ledgerInfoFromRequest = .ok lgrInfo)
    (hlim : ctx.params.lookup "limit" = none ∨
      ∃ n, ctx.params.lookup "limit" = some (.int64 n) ∧ 0 < toUInt32 n) :
    ((∃ st, doAccountChannels P ctx = .error st) ↔
      (accountError ctx ≠ none ∨ destinationError ctx ≠ none ∨ markerError ctx ≠ none)) ∧
    (∀ st, doAccountChannels P ctx = .error st ↔
      st.code = Error.rpcINVALID_PARAMS ∧ firstError ctx = some st.message) ∧
    (∀ st, doAccountChannels P ctx = .error st →
      channelsParams ctx = .error st ∧
      ∀ owned, doAccountChannels P { ctx with ownedNodes := owned } = .error st) := by
  have hdo : ∀ st, doAccountChannels P ctx = .error st ↔ channelsParams ctx = .error st := by
    intro st
    unfold doAccountChannels
    cases channelsParams ctx with
    | error e => simp
    | ok p => simp
  have hlimit : limitError ctx = none := by
    unfold limitError
    rcases hlim with h | ⟨n, h, hn⟩
    · rw [h]
    · rw [h]
      have : ¬ toUInt32 n ≤ 0 := by omega
      simp [this]
  have hiff : ∀ st, doAccountChannels P ctx = .error st ↔
      st.code = Error.rpcINVALID_PARAMS ∧ firstError ctx = some st.message := fun st =>
    (hdo st).trans (channelsParams_error_iff ctx lgrInfo hlgr st)
  refine ⟨?_, hiff, ?_⟩
  · constructor
    · rintro ⟨st, hst⟩
      have h := ((hiff st).mp hst).2
      unfold firstError at h
      rw [hlimit] at h
      by_contra hcon
      simp only [not_or, ne_eq, not_not] at hcon
      rw [hcon.1, hcon.2.1, hcon.2.2] at h
      simp at h
    · intro h
      have hne : firstError ctx ≠ none := by
        unfold firstError
        rw [hlimit]
        rcases ha : accountError ctx with _ | e
        · rcases hd : destinationError ctx with _ | e
          · rcases hm : markerError ctx with _ | e
            · simp [ha, hd, hm] at h
            · simp
          · simp
        · simp
      obtain ⟨msg, hmsg⟩ := Option.ne_none_iff_exists'.mp hne
      exact ⟨⟨Error.rpcINVALID_PARAMS, msg⟩, (hiff _).mpr ⟨rfl, hmsg⟩⟩
  · intro st hst
    refine ⟨(hdo st).mp hst, fun owned => ?_⟩
    have hsame : channelsParams { ctx with ownedNodes := owned } = channelsParams ctx := rfl
    unfold doAccountChannels
    rw [hsame, (hdo st).mp hst]

/-- The request without `account` is rejected with `missingAccount`. -/
theorem doAccountChannels_validation_witness :
    doAccountChannels rippled (sampleContext [("limit", .int64 5)] []) =
      .error ⟨Error.rpcINVALID_PARAMS, "missingAccount"⟩ :=
  ((doAccountChannels_validation rippled (sampleContext [("limit", .int64 5)] []) ⟨7, 99⟩ rfl
    (Or.inr ⟨5, rfl, by decide⟩)).2.1 ⟨Error.rpcINVALID_PARAMS, "missingAccount"⟩).mpr
    ⟨rfl, rfl⟩

/-- C13 at a failing input: the ledger is resolved, `account` is the parseable string
`rALICE`, no `destination_account` and no `marker` are given, and `limit` is the positive
integer `4294967296`; none of the checks of account, destination and marker fails, and the
handler returns the InvalidParams status `limitNotPositive`, because the limit converts to
the 32-bit value `0`. -/
theorem doAccountChannels_positive_limit_rejected :
    (0 : Int) < 4294967296 ∧
    accountError
      (sampleContext [("account", .string "rALICE"), ("limit", .int64 4294967296)]
        [sampleChannel 10 5]) = none ∧
    destinationError
      (sampleContext [("account", .string "rALICE"), ("limit", .int64 4294967296)]
        [sampleChannel 10 5]) = none ∧
    markerError
      (sampleContext [("account", .string "rALICE"), ("limit", .int64 4294967296)]
        [sampleChannel 10 5]) = none ∧
    doAccountChannels rippled
      (sampleContext [("account", .string "rALICE"), ("limit", .int64 4294967296)]
        [sampleChannel 10 5]) =
      .error ⟨Error.rpcINVALID_PARAMS, "limitNotPositive"⟩ := by
  refine ⟨by decide, rfl, rfl, rfl, rfl⟩

/-! ## Errors of `doNoRippleCheck` -/

/-- C14: for a request whose `account` is a parseable string and whose `role` is a string:
if the role is neither "gateway" nor "user" the handler returns the InvalidParams status
"role field is invalid" and no response; if the role is one of the two, `limit` and
`transactions` are read, the ledger is resolved and the account root is absent from it,
the handler fails with the account-not-found error, which is neither a status (InvalidParams
included) nor an invalid-parameters exception, whatever the owner directory holds, so no
owned object decides the outcome and no response is produced. -/
theorem doNoRippleCheck_errors (P : Protocol) (ctx : Context) (account role : String)
    (accountID : AccountID)
    (hacc : ctx.getRequiredString ctx.params "account" = .ok account)
    (hid : ctx.accountFromStringStrict account = some accountID)
    (hrole : ctx.getRequiredString ctx.params "role" = .ok role) :
    (role ≠ "gateway" → role ≠ "user" →
      doNoRippleCheck P ctx =
        .error (.status ⟨Error.rpcINVALID_PARAMS, "role field is invalid"⟩)) ∧
    (role = "gateway" ∨ role = "user" →
      ∀ (limit : Nat) (includeTxs : Bool) (lgrInfo : LedgerInfo),
        ctx.getUInt ctx.params "limit" 300 = .ok limit →
        ctx.getBool ctx.params "transactions" false = .ok includeTxs →
        ctx.ledgerInfoFromRequest = .ok lgrInfo →
        ctx.fetchLedgerObject (ctx.accountKeylet accountID) lgrInfo.seq = none →
        (∀ owned, doNoRippleCheck P { ctx with ownedNodes := owned } =
          .error (.accountNotFoundError accountID)) ∧
        doNoRippleCheck P ctx = .error (.accountNotFoundError accountID) ∧
        (∀ st, Failure.accountNotFoundError accountID ≠ Failure.status st) ∧
        (∀ msg, Failure.accountNotFoundError accountID ≠ Failure.invalidParamsError msg)) := by
  constructor
  · intro h1 h2
    simp [doNoRippleCheck, hacc, hid, hrole, h1, h2]
  · intro hr limit includeTxs lgrInfo hlimit hbool hlgr hroot
    have hvalid : (role != "gateway" && role != "user") = false := by
      rcases hr with h | h <;> simp [h]
    have hmain : doNoRippleCheck P ctx = .error (.accountNotFoundError accountID) := by
      simp only [doNoRippleCheck, hacc, hid, hrole, hvalid, hlimit, hbool, hlgr, hroot]
      simp
    refine ⟨fun owned => ?_, hmain, fun st h => Failure.noConfusion h,
      fun msg h => Failure.noConfusion h⟩
    simp only [doNoRippleCheck, hacc, hid, hrole, hvalid, hlimit, hbool, hlgr, hroot]
    simp

/-- Witness of C14: the role "issuer" is rejected, and for role "gateway" an account
without a root in the ledger gives the account-not-found error. -/
theorem doNoRippleCheck_errors_witness :
    doNoRippleCheck rippled
        (sampleContext [("account", .string "rALICE"), ("role", .string "issuer")] []) =
      .error (.status ⟨Error.rpcINVALID_PARAMS, "role field is invalid"⟩) ∧
    doNoRippleCheck rippled
        (sampleContext [("account", .string "rALICE"), ("role", .string "gateway")]
          [sampleLine 10 2 0x00100000]) =
      .error (.accountNotFoundError 1) :=
  ⟨(doNoRippleCheck_errors rippled
      (sampleContext [("account", .string "rALICE"), ("role", .string "issuer")] [])
      "rALICE" "issuer" 1 rfl rfl rfl).1 (by decide) (by decide),
    ((doNoRippleCheck_errors rippled
      (sampleContext [("account", .string "rALICE"), ("role", .string "gateway")]
        [sampleLine 10 2 0x00100000])
      "rALICE" "gateway" 1 rfl rfl rfl).2 (Or.inl rfl) 300 false ⟨7, 99⟩ rfl rfl rfl rfl).2.1⟩

end Clio
